import Mathlib

/-!
Shallow embedding of the user-failure-analytics repository.

The repository has two pipeline variants:
* the CLI variant (`src/analyzer.py`, `src/main.py`), embedded in namespace
  `Analyzer`, and
* the service variant (`src/user-failure-analysis/{main,analyzer,server,
  function_app}.py`), embedded in namespace `Service`.

Machine floats are modelled by exact rationals (`ℚ`); `None`/`NaN` results are
modelled by `Option`.  Python's stable `list.sort` and the stable order used by
numpy argsort on the small frames arising here are modelled by
`List.insertionSort`, the canonical stable sort.
-/

set_option allowUnsafeReducibility true in
attribute [semireducible] Rat.add Rat.mul Rat.inv Rat.sub

/-- One row of the query result: `(session_id, name, exotel_call_sid)`.
A `none` call sid marks a failed session. -/
structure SessionRecord where
  session_id : Nat
  name : String
  exotel_call_sid : Option String
deriving DecidableEq, Repr

/-- Python string comparison (code-point lexicographic), as used by pandas when
sorting `groupby` keys.  Implemented structurally so that it evaluates. -/
def strLe (a b : String) : Bool :=
  go a.toList b.toList
where
  go : List Char → List Char → Bool
  | [], _ => true
  | _ :: _, [] => false
  | c :: cs, d :: ds => if c < d then true else if d < c then false else go cs ds

/-- Python `str.strip()` on the whitespace characters that occur in the data:
drops leading and trailing whitespace code points. -/
def pyStrip (s : String) : String :=
  let ws : Char → Bool := fun c => c = ' ' || c = '\t' || c = '\n' || c = '\r'
  String.mk (((s.toList.dropWhile ws).reverse.dropWhile ws).reverse)

/-- The distinct user names in ascending order: `groupby("name")` (both
variants) iterates groups with sorted keys. -/
def sortedUniqueNames (names : List String) : List String :=
  List.insertionSort (fun a b => strLe a b = true) names.dedup

namespace Analyzer

/-- `UserFailureStats` dataclass of `src/analyzer.py`. -/
structure UserFailureStats where
  name : String
  total_sessions : Nat
  failed_sessions : Nat
  failure_rate : ℚ
  success_sessions : Nat
  success_rate : ℚ
deriving DecidableEq, Repr

/-- The group of records belonging to one user name. -/
def groupFor (rs : List SessionRecord) (n : String) : List SessionRecord :=
  rs.filter (fun r => r.name == n)

/-- Statistics of one `groupby` group (`src/analyzer.py` lines 88-108):
`total = len(group)`, `failed = count of null exotel_call_sid`,
`success = total - failed`, rates guarded by `total > 0`. -/
def mkStat (rs : List SessionRecord) (n : String) : UserFailureStats :=
  let g := groupFor rs n
  let total := g.length
  let failed := (g.filter (fun r => r.exotel_call_sid.isNone)).length
  let success := total - failed
  { name := n
    total_sessions := total
    failed_sessions := failed
    failure_rate := if total > 0 then (failed : ℚ) / total else 0
    success_sessions := success
    success_rate := if total > 0 then (success : ℚ) / total else 0 }

/-- Sort key order of `user_stats.sort(key=lambda x: (-x.failure_rate,
-x.total_sessions))`: the tuple `(-rate, -total)` compared lexicographically. -/
def mainLE (a b : UserFailureStats) : Prop :=
  b.failure_rate < a.failure_rate ∨
    (a.failure_rate = b.failure_rate ∧ b.total_sessions ≤ a.total_sessions)

instance : DecidableRel mainLE := fun a b => by
  unfold mainLE; infer_instance

instance : IsTotal UserFailureStats mainLE where
  total a b := by
    unfold mainLE
    rcases lt_trichotomy a.failure_rate b.failure_rate with h | h | h
    · exact Or.inr (Or.inl h)
    · rcases Nat.le_total b.total_sessions a.total_sessions with h2 | h2
      · exact Or.inl (Or.inr ⟨h, h2⟩)
      · exact Or.inr (Or.inr ⟨h.symm, h2⟩)
    · exact Or.inl (Or.inl h)

instance : IsTrans UserFailureStats mainLE where
  trans a b c hab hbc := by
    unfold mainLE at *
    rcases hab with h1 | ⟨h1, h1t⟩ <;> rcases hbc with h2 | ⟨h2, h2t⟩
    · exact Or.inl (h2.trans h1)
    · exact Or.inl (h2 ▸ h1)
    · exact Or.inl (by rw [h1]; exact h2)
    · exact Or.inr ⟨h1.trans h2, le_trans h2t h1t⟩

/-- The per-user statistics before sorting, in `groupby` iteration order
(ascending stripped name). -/
def groupedStats (records : List SessionRecord) : List UserFailureStats :=
  let rs := records.map (fun r => { r with name := pyStrip r.name })
  (sortedUniqueNames (rs.map (fun r => r.name))).map (mkStat rs)

/-- `FailureAnalyzer.calculate_failure_rates`: strip names, group by name,
build per-group stats, then stable-sort by `(-failure_rate,
-total_sessions)`. -/
def calculate_failure_rates (records : List SessionRecord) :
    List UserFailureStats :=
  List.insertionSort mainLE (groupedStats records)

/-- Ascending order on per-user failure-rate samples, used by the numpy
order statistics (median). -/
def rateSampleLE (a b : ℚ) : Prop := a ≤ b

instance : DecidableRel rateSampleLE := fun a b => by
  unfold rateSampleLE; infer_instance

/-- `np.median`: middle element of the ascending sample, or the mean of the two
middle elements for an even sample size. -/
def npMedian (l : List ℚ) : ℚ :=
  let s := List.insertionSort rateSampleLE l
  let n := s.length
  if n % 2 = 1 then s.getD (n / 2) 0
  else (s.getD (n / 2 - 1) 0 + s.getD (n / 2) 0) / 2

/-- `np.max` over a nonempty sample (callers guard the empty case). -/
def npMax (l : List ℚ) : ℚ :=
  match l with
  | [] => 0
  | a :: r => r.foldl max a

/-- `np.min` over a nonempty sample (callers guard the empty case). -/
def npMin (l : List ℚ) : ℚ :=
  match l with
  | [] => 0
  | a :: r => r.foldl min a

/-- `np.mean`: the unweighted arithmetic mean.  On an empty sample numpy
returns `NaN`; `NaN` is modelled by `none`. -/
def npMean (l : List ℚ) : Option ℚ :=
  if l.isEmpty then none else some (l.sum / l.length)

/-- Summary dictionary of `FailureAnalyzer.get_summary_statistics`.
`avg_user_failure_rate` is an `Option` because `np.mean([])` is `NaN`
(modelled `none`); the other distribution statistics are guarded by
`if failure_rates else 0.0` in the source.  `np.std` returns the square root
of `std_sq_user_failure_rate`; it is `0.0` exactly when that field is `0`. -/
structure SummaryStats where
  total_users : Nat
  total_sessions : Nat
  total_failures : Nat
  overall_failure_rate : ℚ
  avg_user_failure_rate : Option ℚ
  median_user_failure_rate : ℚ
  max_user_failure_rate : ℚ
  min_user_failure_rate : ℚ
  std_sq_user_failure_rate : ℚ
deriving DecidableEq, Repr

/-- `FailureAnalyzer.get_summary_statistics` (`src/analyzer.py` lines
135-156). -/
def get_summary_statistics (stats : List UserFailureStats) : SummaryStats :=
  let total_sessions := (stats.map (fun s => s.total_sessions)).sum
  let total_failures := (stats.map (fun s => s.failed_sessions)).sum
  let rates := stats.map (fun s => s.failure_rate)
  let mean := (rates.sum / rates.length : ℚ)
  { total_users := stats.length
    total_sessions := total_sessions
    total_failures := total_failures
    overall_failure_rate :=
      if total_sessions > 0 then (total_failures : ℚ) / total_sessions else 0
    avg_user_failure_rate := npMean rates
    median_user_failure_rate := if rates.isEmpty then 0 else npMedian rates
    max_user_failure_rate := if rates.isEmpty then 0 else npMax rates
    min_user_failure_rate := if rates.isEmpty then 0 else npMin rates
    std_sq_user_failure_rate :=
      if rates.isEmpty then 0
      else ((rates.map (fun x => (x - mean) ^ 2)).sum / rates.length : ℚ) }

/-- `run_analysis` of `src/main.py`: an empty query result prints
"No data found" and returns exit code 1 (no summary is produced); otherwise
the pipeline runs and exits 0. -/
def run_analysis_cli (records : List SessionRecord) : Nat × Option SummaryStats :=
  if records.isEmpty then (1, none)
  else (0, some (get_summary_statistics (calculate_failure_rates records)))

end Analyzer

namespace Service

/-- One row of the processed frame built by `process_data` of
`src/user-failure-analysis/main.py`: `failure_rate` is a percentage rounded
to one decimal. -/
structure UserRow where
  user : String
  total_sessions : Nat
  failed_sessions : Nat
  failure_rate : ℚ
deriving DecidableEq, Repr

/-- Round to the nearest integer, ties to even (the rounding used by
`Series.round`). -/
def roundHalfEven (q : ℚ) : ℤ :=
  let n := q.floor
  let f := q - n
  if f < 1/2 then n else if 1/2 < f then n + 1 else if Even n then n else n + 1

/-- `Series.round(1)`: round to one decimal place, ties to even. -/
def pyRound1 (q : ℚ) : ℚ := (roundHalfEven (q * 10) : ℚ) / 10

/-- Ascending order on processed rows by `failure_rate`, the single sort key
of `sort_values("failure_rate", ascending=False)`. -/
def rateLE (a b : UserRow) : Prop := a.failure_rate ≤ b.failure_rate

instance : DecidableRel rateLE := fun a b => by
  unfold rateLE; infer_instance

/-- `df.sort_values("failure_rate", ascending=False)`: pandas computes a
stable ascending argsort of the key column and reverses the indexer
(`nargsort`), so the result is the reverse of the stable ascending order.
(numpy's default sort is stable for the frame sizes arising here.) -/
def sort_values_rate_desc (rows : List UserRow) : List UserRow :=
  (List.insertionSort rateLE rows).reverse

/-- `process_data` (`src/user-failure-analysis/main.py` lines 207-256):
group by the raw (unstripped) user name, compute totals and the rounded
percentage rate, sort by rate descending, keep the top `max_users` rows. -/
def process_data (records : List SessionRecord) (max_users : Nat := 15) :
    List UserRow :=
  if records.isEmpty then []
  else
    let names := sortedUniqueNames (records.map (fun r => r.name))
    let rows := names.map (fun n =>
      let g := records.filter (fun r => r.name == n)
      let total := g.length
      let failed := (g.filter (fun r => r.exotel_call_sid.isNone)).length
      { user := n
        total_sessions := total
        failed_sessions := failed
        failure_rate := pyRound1 ((failed : ℚ) / total * 100) })
    (sort_values_rate_desc rows).take max_users

/-- The summary block of the service `run_analysis` response
(`src/user-failure-analysis/main.py` lines 320-342); `success := true` marks
the success payload. -/
structure Stats where
  success : Bool
  total_users : Nat
  total_sessions : Nat
  failed_sessions : Nat
  overall_failure_rate : ℚ
deriving DecidableEq, Repr

/-- `run_analysis` of `src/user-failure-analysis/main.py`: the returned
`stats` are computed over the processed (already truncated) frame. -/
def run_analysis_stats (records : List SessionRecord) (max_users : Nat := 15) :
    Stats :=
  let dfp := process_data records max_users
  let ts := (dfp.map (fun r => r.total_sessions)).sum
  let fs := (dfp.map (fun r => r.failed_sessions)).sum
  { success := true
    total_users := dfp.length
    total_sessions := ts
    failed_sessions := fs
    overall_failure_rate := if ts > 0 then (fs : ℚ) / ts * 100 else 0 }

end Service

/-! ### Rate classifier (binner)

Both variants call `pd.cut(values, bins=list(range(0, 101, 10)), ...)`.
`pd.cut` computes `ids = bins.searchsorted(x, side)` with `side = "left"`
for `right=True` and `side = "right"` for `right=False`, then maps `ids` out
of `1..len(bins)-1` to `NaN`; `include_lowest=True` additionally forces
`ids = 1` whenever `x == bins[0]`.  `binIndex` below returns the zero-based
bucket (`ids - 1`), with `none` for `NaN`. -/

/-- `list(range(0, 101, 10))`: the eleven bin edges. -/
def binEdges : List ℚ := [0, 10, 20, 30, 40, 50, 60, 70, 80, 90, 100]

/-- The ten labels `"0-10%", ..., "90-100%"` (both variants build them as
`f"{i}-{i+10}%"` over `range(0, 100, 10)`). -/
def rangeLabels : List String :=
  (List.range 10).map (fun i => toString (10 * i) ++ "-" ++ toString (10 * i + 10) ++ "%")

namespace Analyzer

/-- `searchsorted(..., side="right")`: the number of edges `≤ v`
(`src/analyzer.py` passes `right=False`). -/
def cutIds (v : ℚ) : Nat := (binEdges.filter (fun e => e ≤ v)).length

/-- Zero-based bucket of a percentage value under the CLI variant's
`pd.cut(..., include_lowest=True, right=False)`; `none` models `NaN`.
(`include_lowest` is a no-op here: `v = 0` already yields `ids = 1`.) -/
def binIndex (v : ℚ) : Option Nat :=
  let i := cutIds v
  if 1 ≤ i ∧ i ≤ 10 then some (i - 1) else none

/-- `df_all["Bin"].value_counts().sort_index()` over a categorical column:
one count per category in category order, counting every value whose bucket
is the category (`NaN` rows are dropped). -/
def binCounts (percents : List ℚ) : List Nat :=
  (List.range 10).map (fun i => (percents.filter (fun v => binIndex v == some i)).length)

/-- The binning stage of `FailureAnalyzer.create_interactive_bar_plot`
(lines 246-290): building `df_all` from an empty stats list produces a
DataFrame with no columns, so `df_all["Failure Rate"]` raises (wrapped into
`AnalysisError`); otherwise each user's `failure_rate * 100` is bucketed. -/
def create_interactive_bar_plot_bins (stats : List UserFailureStats) :
    Except String (List Nat) :=
  if stats.isEmpty then Except.error "AnalysisError: KeyError Failure Rate"
  else Except.ok (binCounts (stats.map (fun s => s.failure_rate * 100)))

end Analyzer

namespace Service

/-- `searchsorted(..., side="left")` with the `include_lowest` fix-up:
`ids = 1` when `v == bins[0] = 0`, else the number of edges `< v`
(`src/user-failure-analysis/analyzer.py` passes `right=True,
include_lowest=True`). -/
def cutIds (v : ℚ) : Nat :=
  if v = 0 then 1 else (binEdges.filter (fun e => e < v)).length

/-- Zero-based bucket of a percentage value under the service variant's
`pd.cut(..., include_lowest=True, right=True)`; `none` models `NaN`. -/
def binIndex (v : ℚ) : Option Nat :=
  let i := cutIds v
  if 1 ≤ i ∧ i ≤ 10 then some (i - 1) else none

/-- `create_failure_rate_bins` (`src/user-failure-analysis/analyzer.py`
lines 14-75): bucket the `failure_rate` percentages, then left-merge onto
the full label list so that all ten ranges appear, in label order, with
count 0 for empty ranges. -/
def create_failure_rate_bins (rates : List ℚ) : List (String × Nat) :=
  (List.range 10).map (fun i =>
    (rangeLabels.getD i "",
      (rates.filter (fun v => binIndex v == some i)).length))

end Service

/-! ### Report cache and window validation (service variant) -/

namespace Server

/-- Outcome of the cache check in `analyze_data`
(`src/user-failure-analysis/server.py`). -/
inductive CacheDecision where
  | reuse
  | regenerate
deriving DecidableEq, Repr

/-- `is_cache_valid` (`server.py` lines 44-51): the file exists and
`now - mtime < timedelta(hours=ttlHours)`.  Timestamps are seconds. -/
def is_cache_valid (now ttlHours : ℚ) (mtime : Option ℚ) : Bool :=
  match mtime with
  | none => false
  | some m => decide (now - m < ttlHours * 3600)

/-- The cache resolution of `analyze_data` (`server.py` lines 127-150):
`force_refresh = request.force_refresh or FORCE_REFRESH env`, reuse iff not
forced and all four report files (analysis html/csv, dashboard html/csv) are
individually valid. -/
def analyze_cache_decision (reqForce envForce : Bool)
    (m1 m2 m3 m4 : Option ℚ) (now ttlHours : ℚ) : CacheDecision :=
  let force_refresh := reqForce || envForce
  let cache_valid := is_cache_valid now ttlHours m1 &&
    is_cache_valid now ttlHours m2 &&
    is_cache_valid now ttlHours m3 &&
    is_cache_valid now ttlHours m4
  if !force_refresh && cache_valid then CacheDecision.reuse
  else CacheDecision.regenerate

end Server

/-- Split a character list on a separator character; `splitOnChar c l` has one
(possibly empty) group per separator-delimited segment. -/
def splitOnChar (sep : Char) : List Char → List (List Char)
  | [] => [[]]
  | c :: cs =>
    match splitOnChar sep cs with
    | [] => [[c]]
    | g :: gs => if c = sep then [] :: g :: gs else (c :: g) :: gs

/-- Parse a nonempty all-digit character list as a decimal number. -/
def decDigits (cs : List Char) : Option Nat :=
  if cs ≠ [] ∧ cs.all (fun c => c.isDigit) then
    some (cs.foldl (fun n c => 10 * n + (c.toNat - 48)) 0)
  else none

/-- Gregorian leap year, as used by `datetime`. -/
def isLeap (y : Nat) : Bool := y % 4 = 0 && (y % 100 ≠ 0 || y % 400 = 0)

/-- Days in a month, as validated by the `datetime` constructor. -/
def daysInMonth (y m : Nat) : Nat :=
  if m = 2 then (if isLeap y then 29 else 28)
  else if m = 4 ∨ m = 6 ∨ m = 9 ∨ m = 11 then 30
  else 31

/-- `datetime.strptime(s, "%Y-%m-%d")`: three dash-separated digit groups,
`%Y` exactly four digits, `%m`/`%d` one or two digits in range, and the
`datetime` constructor's calendar check (`year ≥ 1`,
`day ≤ days_in_month`). -/
def parseDate (s : String) : Option (Nat × Nat × Nat) :=
  match splitOnChar '-' s.toList with
  | [ys, ms, ds] =>
    match decDigits ys, decDigits ms, decDigits ds with
    | some y, some m, some d =>
      if ys.length = 4 ∧ 1 ≤ y ∧
          ms.length ≤ 2 ∧ 1 ≤ m ∧ m ≤ 12 ∧
          ds.length ≤ 2 ∧ 1 ≤ d ∧ d ≤ daysInMonth y m
      then some (y, m, d) else none
    | _, _, _ => none
  | _ => none

/-- Date order: `datetime` comparison is lexicographic on
(year, month, day). -/
def dateLe (a b : Nat × Nat × Nat) : Bool :=
  a.1 < b.1 || (a.1 = b.1 && (a.2.1 < b.2.1 || (a.2.1 = b.2.1 && a.2.2 ≤ b.2.2)))

namespace Server

/-- The date validation at the top of `analyze_data` (`server.py` lines
109-117): parse both dates with `strptime`, then reject `from > to`; any
`ValueError` becomes an HTTP 400. -/
def validate_window (fromS toS : String) : Except String Unit :=
  match parseDate fromS with
  | none => Except.error "time data does not match format Y-m-d"
  | some f =>
    match parseDate toS with
    | none => Except.error "time data does not match format Y-m-d"
    | some t =>
      if dateLe f t then Except.ok ()
      else Except.error "Start date cannot be after end date"

/-- Observable side effects of one `analyze_data` call, in program order:
`storageAccess` covers `get_report_paths` (makedirs) and the cache's file
metadata reads; `fetchData` is the database query inside `run_analysis`;
`render` is report generation and copying. -/
inductive Effect where
  | storageAccess
  | fetchData
  | render
deriving DecidableEq, Repr

/-- Responses of `analyze_data` relevant to validation and caching. -/
inductive Response where
  | badRequest (msg : String)
  | cached
  | generated
deriving DecidableEq, Repr

/-- `analyze_data` (`server.py` lines 103-198), as a trace of side effects
plus a response: validation runs before `get_report_paths` and before
`run_analysis`, so a validation failure performs no storage access and no
fetch. -/
def analyze_data (fromS toS : String) (reqForce envForce : Bool)
    (m1 m2 m3 m4 : Option ℚ) (now ttlHours : ℚ) : List Effect × Response :=
  match validate_window fromS toS with
  | Except.error msg => ([], Response.badRequest msg)
  | Except.ok _ =>
    match analyze_cache_decision reqForce envForce m1 m2 m3 m4 now ttlHours with
    | CacheDecision.reuse => ([Effect.storageAccess], Response.cached)
    | CacheDecision.regenerate =>
      ([Effect.storageAccess, Effect.fetchData, Effect.render], Response.generated)

end Server

namespace FuncApp

/-- The request fields consulted by `_validate_request`
(`src/user-failure-analysis/function_app.py`).  A `none` field is absent
from the dict; an empty string is present but falsy in Python. -/
structure RequestData where
  from_date : Option String
  to_date : Option String
  date_range_days : Option Int
  max_users : Option Int
deriving DecidableEq, Repr

/-- Python truthiness of an optional string field. -/
def truthy : Option String → Bool
  | none => false
  | some s => !(s == "")

/-- The trailing `max_users` bound check of `_validate_request`
(`function_app.py` lines 222-226). -/
def checkMaxUsers (r : RequestData) : Except String Unit :=
  match r.max_users with
  | some mu =>
    if mu ≤ 0 ∨ mu > 100 then
      Except.error "max_users must be between 1 and 100"
    else Except.ok ()
  | none => Except.ok ()

/-- `_validate_request` (`function_app.py` lines 168-230): date format and
ordering checks when either date key is present, else a `date_range_days`
range check; finally the `max_users` bound check (1..100).  Each failed
check returns its error immediately, as in the source. -/
def validate_request (r : RequestData) : Except String Unit :=
  if r.from_date.isSome || r.to_date.isSome then
    if truthy r.from_date && (parseDate (r.from_date.getD "")).isNone then
      Except.error "from_date must be in YYYY-MM-DD format"
    else if truthy r.to_date && (parseDate (r.to_date.getD "")).isNone then
      Except.error "to_date must be in YYYY-MM-DD format"
    else if truthy r.from_date && truthy r.to_date &&
        (match parseDate (r.from_date.getD ""), parseDate (r.to_date.getD "") with
          | some f, some t => !dateLe f t
          | _, _ => false) then
      Except.error "from_date cannot be after to_date"
    else checkMaxUsers r
  else
    match r.date_range_days with
    | some days =>
      if days ≤ 0 ∨ days > 30 then
        Except.error "date_range_days must be between 1 and 30"
      else checkMaxUsers r
    | none => checkMaxUsers r

end FuncApp



/-! ### Binner characterization lemmas -/

/-- Two right-open bands `[10i, 10(i+1))` containing the same value have the
same index. -/
lemma band_eq_of_right_open {i k : Nat} {v : ℚ} (h1 : (10 * i : ℚ) ≤ v)
    (h2 : v < 10 * (i + 1)) (h3 : (10 * k : ℚ) ≤ v) (h4 : v < 10 * (k + 1)) :
    i = k := by
  have hik : (i : ℚ) < (k : ℚ) + 1 := by linarith
  have hki : (k : ℚ) < (i : ℚ) + 1 := by linarith
  have h5 : i < k + 1 := by exact_mod_cast hik
  have h6 : k < i + 1 := by exact_mod_cast hki
  omega

/-- Two left-open bands `(10i, 10(i+1)]` containing the same value have the
same index. -/
lemma band_eq_of_left_open {i k : Nat} {v : ℚ} (h1 : (10 * i : ℚ) < v)
    (h2 : v ≤ 10 * (i + 1)) (h3 : (10 * k : ℚ) < v) (h4 : v ≤ 10 * (k + 1)) :
    i = k := by
  have hik : (i : ℚ) < (k : ℚ) + 1 := by linarith
  have hki : (k : ℚ) < (i : ℚ) + 1 := by linarith
  have h5 : i < k + 1 := by exact_mod_cast hik
  have h6 : k < i + 1 := by exact_mod_cast hki
  omega

namespace Analyzer

/-- Closed form of the CLI binner: `right=False` gives the right-open bands
`[0,10), ..., [90,100)` and maps everything else (in particular exactly 100)
to `NaN`. -/
lemma binIndex_main_eq (v : ℚ) :
    binIndex v =
      if v < 0 then none
      else if v < 10 then some 0
      else if v < 20 then some 1
      else if v < 30 then some 2
      else if v < 40 then some 3
      else if v < 50 then some 4
      else if v < 60 then some 5
      else if v < 70 then some 6
      else if v < 80 then some 7
      else if v < 90 then some 8
      else if v < 100 then some 9
      else none := by
  by_cases c0 : v < 0
  · have hc : cutIds v = 0 := by
      unfold cutIds binEdges
      simp [decide_eq_false (not_le.mpr (show v < (0:ℚ) by linarith)), decide_eq_false (not_le.mpr (show v < (10:ℚ) by linarith)), decide_eq_false (not_le.mpr (show v < (20:ℚ) by linarith)), decide_eq_false (not_le.mpr (show v < (30:ℚ) by linarith)), decide_eq_false (not_le.mpr (show v < (40:ℚ) by linarith)), decide_eq_false (not_le.mpr (show v < (50:ℚ) by linarith)), decide_eq_false (not_le.mpr (show v < (60:ℚ) by linarith)), decide_eq_false (not_le.mpr (show v < (70:ℚ) by linarith)), decide_eq_false (not_le.mpr (show v < (80:ℚ) by linarith)), decide_eq_false (not_le.mpr (show v < (90:ℚ) by linarith)), decide_eq_false (not_le.mpr (show v < (100:ℚ) by linarith))]
    simp [binIndex, hc, c0]
  by_cases c1 : v < 10
  · have hge : (0:ℚ) ≤ v := le_of_not_lt c0
    have hc : cutIds v = 1 := by
      unfold cutIds binEdges
      simp [decide_eq_true (show (0:ℚ) ≤ v by linarith), decide_eq_false (not_le.mpr (show v < (10:ℚ) by linarith)), decide_eq_false (not_le.mpr (show v < (20:ℚ) by linarith)), decide_eq_false (not_le.mpr (show v < (30:ℚ) by linarith)), decide_eq_false (not_le.mpr (show v < (40:ℚ) by linarith)), decide_eq_false (not_le.mpr (show v < (50:ℚ) by linarith)), decide_eq_false (not_le.mpr (show v < (60:ℚ) by linarith)), decide_eq_false (not_le.mpr (show v < (70:ℚ) by linarith)), decide_eq_false (not_le.mpr (show v < (80:ℚ) by linarith)), decide_eq_false (not_le.mpr (show v < (90:ℚ) by linarith)), decide_eq_false (not_le.mpr (show v < (100:ℚ) by linarith))]
    simp [binIndex, hc, c0, c1]
  by_cases c2 : v < 20
  · have hge : (10:ℚ) ≤ v := le_of_not_lt c1
    have hc : cutIds v = 2 := by
      unfold cutIds binEdges
      simp [decide_eq_true (show (0:ℚ) ≤ v by linarith), decide_eq_true (show (10:ℚ) ≤ v by linarith), decide_eq_false (not_le.mpr (show v < (20:ℚ) by linarith)), decide_eq_false (not_le.mpr (show v < (30:ℚ) by linarith)), decide_eq_false (not_le.mpr (show v < (40:ℚ) by linarith)), decide_eq_false (not_le.mpr (show v < (50:ℚ) by linarith)), decide_eq_false (not_le.mpr (show v < (60:ℚ) by linarith)), decide_eq_false (not_le.mpr (show v < (70:ℚ) by linarith)), decide_eq_false (not_le.mpr (show v < (80:ℚ) by linarith)), decide_eq_false (not_le.mpr (show v < (90:ℚ) by linarith)), decide_eq_false (not_le.mpr (show v < (100:ℚ) by linarith))]
    simp [binIndex, hc, c0, c1, c2]
  by_cases c3 : v < 30
  · have hge : (20:ℚ) ≤ v := le_of_not_lt c2
    have hc : cutIds v = 3 := by
      unfold cutIds binEdges
      simp [decide_eq_true (show (0:ℚ) ≤ v by linarith), decide_eq_true (show (10:ℚ) ≤ v by linarith), decide_eq_true (show (20:ℚ) ≤ v by linarith), decide_eq_false (not_le.mpr (show v < (30:ℚ) by linarith)), decide_eq_false (not_le.mpr (show v < (40:ℚ) by linarith)), decide_eq_false (not_le.mpr (show v < (50:ℚ) by linarith)), decide_eq_false (not_le.mpr (show v < (60:ℚ) by linarith)), decide_eq_false (not_le.mpr (show v < (70:ℚ) by linarith)), decide_eq_false (not_le.mpr (show v < (80:ℚ) by linarith)), decide_eq_false (not_le.mpr (show v < (90:ℚ) by linarith)), decide_eq_false (not_le.mpr (show v < (100:ℚ) by linarith))]
    simp [binIndex, hc, c0, c1, c2, c3]
  by_cases c4 : v < 40
  · have hge : (30:ℚ) ≤ v := le_of_not_lt c3
    have hc : cutIds v = 4 := by
      unfold cutIds binEdges
      simp [decide_eq_true (show (0:ℚ) ≤ v by linarith), decide_eq_true (show (10:ℚ) ≤ v by linarith), decide_eq_true (show (20:ℚ) ≤ v by linarith), decide_eq_true (show (30:ℚ) ≤ v by linarith), decide_eq_false (not_le.mpr (show v < (40:ℚ) by linarith)), decide_eq_false (not_le.mpr (show v < (50:ℚ) by linarith)), decide_eq_false (not_le.mpr (show v < (60:ℚ) by linarith)), decide_eq_false (not_le.mpr (show v < (70:ℚ) by linarith)), decide_eq_false (not_le.mpr (show v < (80:ℚ) by linarith)), decide_eq_false (not_le.mpr (show v < (90:ℚ) by linarith)), decide_eq_false (not_le.mpr (show v < (100:ℚ) by linarith))]
    simp [binIndex, hc, c0, c1, c2, c3, c4]
  by_cases c5 : v < 50
  · have hge : (40:ℚ) ≤ v := le_of_not_lt c4
    have hc : cutIds v = 5 := by
      unfold cutIds binEdges
      simp [decide_eq_true (show (0:ℚ) ≤ v by linarith), decide_eq_true (show (10:ℚ) ≤ v by linarith), decide_eq_true (show (20:ℚ) ≤ v by linarith), decide_eq_true (show (30:ℚ) ≤ v by linarith), decide_eq_true (show (40:ℚ) ≤ v by linarith), decide_eq_false (not_le.mpr (show v < (50:ℚ) by linarith)), decide_eq_false (not_le.mpr (show v < (60:ℚ) by linarith)), decide_eq_false (not_le.mpr (show v < (70:ℚ) by linarith)), decide_eq_false (not_le.mpr (show v < (80:ℚ) by linarith)), decide_eq_false (not_le.mpr (show v < (90:ℚ) by linarith)), decide_eq_false (not_le.mpr (show v < (100:ℚ) by linarith))]
    simp [binIndex, hc, c0, c1, c2, c3, c4, c5]
  by_cases c6 : v < 60
  · have hge : (50:ℚ) ≤ v := le_of_not_lt c5
    have hc : cutIds v = 6 := by
      unfold cutIds binEdges
      simp [decide_eq_true (show (0:ℚ) ≤ v by linarith), decide_eq_true (show (10:ℚ) ≤ v by linarith), decide_eq_true (show (20:ℚ) ≤ v by linarith), decide_eq_true (show (30:ℚ) ≤ v by linarith), decide_eq_true (show (40:ℚ) ≤ v by linarith), decide_eq_true (show (50:ℚ) ≤ v by linarith), decide_eq_false (not_le.mpr (show v < (60:ℚ) by linarith)), decide_eq_false (not_le.mpr (show v < (70:ℚ) by linarith)), decide_eq_false (not_le.mpr (show v < (80:ℚ) by linarith)), decide_eq_false (not_le.mpr (show v < (90:ℚ) by linarith)), decide_eq_false (not_le.mpr (show v < (100:ℚ) by linarith))]
    simp [binIndex, hc, c0, c1, c2, c3, c4, c5, c6]
  by_cases c7 : v < 70
  · have hge : (60:ℚ) ≤ v := le_of_not_lt c6
    have hc : cutIds v = 7 := by
      unfold cutIds binEdges
      simp [decide_eq_true (show (0:ℚ) ≤ v by linarith), decide_eq_true (show (10:ℚ) ≤ v by linarith), decide_eq_true (show (20:ℚ) ≤ v by linarith), decide_eq_true (show (30:ℚ) ≤ v by linarith), decide_eq_true (show (40:ℚ) ≤ v by linarith), decide_eq_true (show (50:ℚ) ≤ v by linarith), decide_eq_true (show (60:ℚ) ≤ v by linarith), decide_eq_false (not_le.mpr (show v < (70:ℚ) by linarith)), decide_eq_false (not_le.mpr (show v < (80:ℚ) by linarith)), decide_eq_false (not_le.mpr (show v < (90:ℚ) by linarith)), decide_eq_false (not_le.mpr (show v < (100:ℚ) by linarith))]
    simp [binIndex, hc, c0, c1, c2, c3, c4, c5, c6, c7]
  by_cases c8 : v < 80
  · have hge : (70:ℚ) ≤ v := le_of_not_lt c7
    have hc : cutIds v = 8 := by
      unfold cutIds binEdges
      simp [decide_eq_true (show (0:ℚ) ≤ v by linarith), decide_eq_true (show (10:ℚ) ≤ v by linarith), decide_eq_true (show (20:ℚ) ≤ v by linarith), decide_eq_true (show (30:ℚ) ≤ v by linarith), decide_eq_true (show (40:ℚ) ≤ v by linarith), decide_eq_true (show (50:ℚ) ≤ v by linarith), decide_eq_true (show (60:ℚ) ≤ v by linarith), decide_eq_true (show (70:ℚ) ≤ v by linarith), decide_eq_false (not_le.mpr (show v < (80:ℚ) by linarith)), decide_eq_false (not_le.mpr (show v < (90:ℚ) by linarith)), decide_eq_false (not_le.mpr (show v < (100:ℚ) by linarith))]
    simp [binIndex, hc, c0, c1, c2, c3, c4, c5, c6, c7, c8]
  by_cases c9 : v < 90
  · have hge : (80:ℚ) ≤ v := le_of_not_lt c8
    have hc : cutIds v = 9 := by
      unfold cutIds binEdges
      simp [decide_eq_true (show (0:ℚ) ≤ v by linarith), decide_eq_true (show (10:ℚ) ≤ v by linarith), decide_eq_true (show (20:ℚ) ≤ v by linarith), decide_eq_true (show (30:ℚ) ≤ v by linarith), decide_eq_true (show (40:ℚ) ≤ v by linarith), decide_eq_true (show (50:ℚ) ≤ v by linarith), decide_eq_true (show (60:ℚ) ≤ v by linarith), decide_eq_true (show (70:ℚ) ≤ v by linarith), decide_eq_true (show (80:ℚ) ≤ v by linarith), decide_eq_false (not_le.mpr (show v < (90:ℚ) by linarith)), decide_eq_false (not_le.mpr (show v < (100:ℚ) by linarith))]
    simp [binIndex, hc, c0, c1, c2, c3, c4, c5, c6, c7, c8, c9]
  by_cases c10 : v < 100
  · have hge : (90:ℚ) ≤ v := le_of_not_lt c9
    have hc : cutIds v = 10 := by
      unfold cutIds binEdges
      simp [decide_eq_true (show (0:ℚ) ≤ v by linarith), decide_eq_true (show (10:ℚ) ≤ v by linarith), decide_eq_true (show (20:ℚ) ≤ v by linarith), decide_eq_true (show (30:ℚ) ≤ v by linarith), decide_eq_true (show (40:ℚ) ≤ v by linarith), decide_eq_true (show (50:ℚ) ≤ v by linarith), decide_eq_true (show (60:ℚ) ≤ v by linarith), decide_eq_true (show (70:ℚ) ≤ v by linarith), decide_eq_true (show (80:ℚ) ≤ v by linarith), decide_eq_true (show (90:ℚ) ≤ v by linarith), decide_eq_false (not_le.mpr (show v < (100:ℚ) by linarith))]
    simp [binIndex, hc, c0, c1, c2, c3, c4, c5, c6, c7, c8, c9, c10]
  · have hge : (100:ℚ) ≤ v := le_of_not_lt c10
    have hc : cutIds v = 11 := by
      unfold cutIds binEdges
      simp [decide_eq_true (show (0:ℚ) ≤ v by linarith), decide_eq_true (show (10:ℚ) ≤ v by linarith), decide_eq_true (show (20:ℚ) ≤ v by linarith), decide_eq_true (show (30:ℚ) ≤ v by linarith), decide_eq_true (show (40:ℚ) ≤ v by linarith), decide_eq_true (show (50:ℚ) ≤ v by linarith), decide_eq_true (show (60:ℚ) ≤ v by linarith), decide_eq_true (show (70:ℚ) ≤ v by linarith), decide_eq_true (show (80:ℚ) ≤ v by linarith), decide_eq_true (show (90:ℚ) ≤ v by linarith), decide_eq_true (show (100:ℚ) ≤ v by linarith)]
    simp [binIndex, hc, c0, c1, c2, c3, c4, c5, c6, c7, c8, c9, c10]

end Analyzer

namespace Service

/-- Closed form of the service binner: `right=True, include_lowest=True`
gives the bands `[0,10], (10,20], ..., (90,100]` and maps everything else to
`NaN`. -/
lemma binIndex_service_eq (v : ℚ) :
    binIndex v =
      if v < 0 then none
      else if v ≤ 10 then some 0
      else if v ≤ 20 then some 1
      else if v ≤ 30 then some 2
      else if v ≤ 40 then some 3
      else if v ≤ 50 then some 4
      else if v ≤ 60 then some 5
      else if v ≤ 70 then some 6
      else if v ≤ 80 then some 7
      else if v ≤ 90 then some 8
      else if v ≤ 100 then some 9
      else none := by
  by_cases hv : v = 0
  · subst hv; norm_num [binIndex, cutIds]
  by_cases c0 : v < 0
  · have hc : cutIds v = 0 := by
      unfold cutIds binEdges
      simp [hv, decide_eq_false (not_lt.mpr (show v ≤ (0:ℚ) by linarith)), decide_eq_false (not_lt.mpr (show v ≤ (10:ℚ) by linarith)), decide_eq_false (not_lt.mpr (show v ≤ (20:ℚ) by linarith)), decide_eq_false (not_lt.mpr (show v ≤ (30:ℚ) by linarith)), decide_eq_false (not_lt.mpr (show v ≤ (40:ℚ) by linarith)), decide_eq_false (not_lt.mpr (show v ≤ (50:ℚ) by linarith)), decide_eq_false (not_lt.mpr (show v ≤ (60:ℚ) by linarith)), decide_eq_false (not_lt.mpr (show v ≤ (70:ℚ) by linarith)), decide_eq_false (not_lt.mpr (show v ≤ (80:ℚ) by linarith)), decide_eq_false (not_lt.mpr (show v ≤ (90:ℚ) by linarith)), decide_eq_false (not_lt.mpr (show v ≤ (100:ℚ) by linarith))]
    simp [binIndex, hc, c0]
  by_cases c1 : v ≤ 10
    -- here 0 ≤ v and v ≠ 0, so 0 < v
  · have hgt : (0:ℚ) < v := lt_of_le_of_ne (le_of_not_lt c0) (Ne.symm hv)
    have hc : cutIds v = 1 := by
      unfold cutIds binEdges
      simp [hv, decide_eq_true (show (0:ℚ) < v by linarith), decide_eq_false (not_lt.mpr (show v ≤ (10:ℚ) by linarith)), decide_eq_false (not_lt.mpr (show v ≤ (20:ℚ) by linarith)), decide_eq_false (not_lt.mpr (show v ≤ (30:ℚ) by linarith)), decide_eq_false (not_lt.mpr (show v ≤ (40:ℚ) by linarith)), decide_eq_false (not_lt.mpr (show v ≤ (50:ℚ) by linarith)), decide_eq_false (not_lt.mpr (show v ≤ (60:ℚ) by linarith)), decide_eq_false (not_lt.mpr (show v ≤ (70:ℚ) by linarith)), decide_eq_false (not_lt.mpr (show v ≤ (80:ℚ) by linarith)), decide_eq_false (not_lt.mpr (show v ≤ (90:ℚ) by linarith)), decide_eq_false (not_lt.mpr (show v ≤ (100:ℚ) by linarith))]
    simp [binIndex, hc, show ¬ (v < 0) from c0, c1]
  by_cases c2 : v ≤ 20
  · have hgt : (10:ℚ) < v := lt_of_not_le c1
    have hc : cutIds v = 2 := by
      unfold cutIds binEdges
      simp [hv, decide_eq_true (show (0:ℚ) < v by linarith), decide_eq_true (show (10:ℚ) < v by linarith), decide_eq_false (not_lt.mpr (show v ≤ (20:ℚ) by linarith)), decide_eq_false (not_lt.mpr (show v ≤ (30:ℚ) by linarith)), decide_eq_false (not_lt.mpr (show v ≤ (40:ℚ) by linarith)), decide_eq_false (not_lt.mpr (show v ≤ (50:ℚ) by linarith)), decide_eq_false (not_lt.mpr (show v ≤ (60:ℚ) by linarith)), decide_eq_false (not_lt.mpr (show v ≤ (70:ℚ) by linarith)), decide_eq_false (not_lt.mpr (show v ≤ (80:ℚ) by linarith)), decide_eq_false (not_lt.mpr (show v ≤ (90:ℚ) by linarith)), decide_eq_false (not_lt.mpr (show v ≤ (100:ℚ) by linarith))]
    simp [binIndex, hc, show ¬ (v < 0) from c0, c1, c2]
  by_cases c3 : v ≤ 30
  · have hgt : (20:ℚ) < v := lt_of_not_le c2
    have hc : cutIds v = 3 := by
      unfold cutIds binEdges
      simp [hv, decide_eq_true (show (0:ℚ) < v by linarith), decide_eq_true (show (10:ℚ) < v by linarith), decide_eq_true (show (20:ℚ) < v by linarith), decide_eq_false (not_lt.mpr (show v ≤ (30:ℚ) by linarith)), decide_eq_false (not_lt.mpr (show v ≤ (40:ℚ) by linarith)), decide_eq_false (not_lt.mpr (show v ≤ (50:ℚ) by linarith)), decide_eq_false (not_lt.mpr (show v ≤ (60:ℚ) by linarith)), decide_eq_false (not_lt.mpr (show v ≤ (70:ℚ) by linarith)), decide_eq_false (not_lt.mpr (show v ≤ (80:ℚ) by linarith)), decide_eq_false (not_lt.mpr (show v ≤ (90:ℚ) by linarith)), decide_eq_false (not_lt.mpr (show v ≤ (100:ℚ) by linarith))]
    simp [binIndex, hc, show ¬ (v < 0) from c0, c1, c2, c3]
  by_cases c4 : v ≤ 40
  · have hgt : (30:ℚ) < v := lt_of_not_le c3
    have hc : cutIds v = 4 := by
      unfold cutIds binEdges
      simp [hv, decide_eq_true (show (0:ℚ) < v by linarith), decide_eq_true (show (10:ℚ) < v by linarith), decide_eq_true (show (20:ℚ) < v by linarith), decide_eq_true (show (30:ℚ) < v by linarith), decide_eq_false (not_lt.mpr (show v ≤ (40:ℚ) by linarith)), decide_eq_false (not_lt.mpr (show v ≤ (50:ℚ) by linarith)), decide_eq_false (not_lt.mpr (show v ≤ (60:ℚ) by linarith)), decide_eq_false (not_lt.mpr (show v ≤ (70:ℚ) by linarith)), decide_eq_false (not_lt.mpr (show v ≤ (80:ℚ) by linarith)), decide_eq_false (not_lt.mpr (show v ≤ (90:ℚ) by linarith)), decide_eq_false (not_lt.mpr (show v ≤ (100:ℚ) by linarith))]
    simp [binIndex, hc, show ¬ (v < 0) from c0, c1, c2, c3, c4]
  by_cases c5 : v ≤ 50
  · have hgt : (40:ℚ) < v := lt_of_not_le c4
    have hc : cutIds v = 5 := by
      unfold cutIds binEdges
      simp [hv, decide_eq_true (show (0:ℚ) < v by linarith), decide_eq_true (show (10:ℚ) < v by linarith), decide_eq_true (show (20:ℚ) < v by linarith), decide_eq_true (show (30:ℚ) < v by linarith), decide_eq_true (show (40:ℚ) < v by linarith), decide_eq_false (not_lt.mpr (show v ≤ (50:ℚ) by linarith)), decide_eq_false (not_lt.mpr (show v ≤ (60:ℚ) by linarith)), decide_eq_false (not_lt.mpr (show v ≤ (70:ℚ) by linarith)), decide_eq_false (not_lt.mpr (show v ≤ (80:ℚ) by linarith)), decide_eq_false (not_lt.mpr (show v ≤ (90:ℚ) by linarith)), decide_eq_false (not_lt.mpr (show v ≤ (100:ℚ) by linarith))]
    simp [binIndex, hc, show ¬ (v < 0) from c0, c1, c2, c3, c4, c5]
  by_cases c6 : v ≤ 60
  · have hgt : (50:ℚ) < v := lt_of_not_le c5
    have hc : cutIds v = 6 := by
      unfold cutIds binEdges
      simp [hv, decide_eq_true (show (0:ℚ) < v by linarith), decide_eq_true (show (10:ℚ) < v by linarith), decide_eq_true (show (20:ℚ) < v by linarith), decide_eq_true (show (30:ℚ) < v by linarith), decide_eq_true (show (40:ℚ) < v by linarith), decide_eq_true (show (50:ℚ) < v by linarith), decide_eq_false (not_lt.mpr (show v ≤ (60:ℚ) by linarith)), decide_eq_false (not_lt.mpr (show v ≤ (70:ℚ) by linarith)), decide_eq_false (not_lt.mpr (show v ≤ (80:ℚ) by linarith)), decide_eq_false (not_lt.mpr (show v ≤ (90:ℚ) by linarith)), decide_eq_false (not_lt.mpr (show v ≤ (100:ℚ) by linarith))]
    simp [binIndex, hc, show ¬ (v < 0) from c0, c1, c2, c3, c4, c5, c6]
  by_cases c7 : v ≤ 70
  · have hgt : (60:ℚ) < v := lt_of_not_le c6
    have hc : cutIds v = 7 := by
      unfold cutIds binEdges
      simp [hv, decide_eq_true (show (0:ℚ) < v by linarith), decide_eq_true (show (10:ℚ) < v by linarith), decide_eq_true (show (20:ℚ) < v by linarith), decide_eq_true (show (30:ℚ) < v by linarith), decide_eq_true (show (40:ℚ) < v by linarith), decide_eq_true (show (50:ℚ) < v by linarith), decide_eq_true (show (60:ℚ) < v by linarith), decide_eq_false (not_lt.mpr (show v ≤ (70:ℚ) by linarith)), decide_eq_false (not_lt.mpr (show v ≤ (80:ℚ) by linarith)), decide_eq_false (not_lt.mpr (show v ≤ (90:ℚ) by linarith)), decide_eq_false (not_lt.mpr (show v ≤ (100:ℚ) by linarith))]
    simp [binIndex, hc, show ¬ (v < 0) from c0, c1, c2, c3, c4, c5, c6, c7]
  by_cases c8 : v ≤ 80
  · have hgt : (70:ℚ) < v := lt_of_not_le c7
    have hc : cutIds v = 8 := by
      unfold cutIds binEdges
      simp [hv, decide_eq_true (show (0:ℚ) < v by linarith), decide_eq_true (show (10:ℚ) < v by linarith), decide_eq_true (show (20:ℚ) < v by linarith), decide_eq_true (show (30:ℚ) < v by linarith), decide_eq_true (show (40:ℚ) < v by linarith), decide_eq_true (show (50:ℚ) < v by linarith), decide_eq_true (show (60:ℚ) < v by linarith), decide_eq_true (show (70:ℚ) < v by linarith), decide_eq_false (not_lt.mpr (show v ≤ (80:ℚ) by linarith)), decide_eq_false (not_lt.mpr (show v ≤ (90:ℚ) by linarith)), decide_eq_false (not_lt.mpr (show v ≤ (100:ℚ) by linarith))]
    simp [binIndex, hc, show ¬ (v < 0) from c0, c1, c2, c3, c4, c5, c6, c7, c8]
  by_cases c9 : v ≤ 90
  · have hgt : (80:ℚ) < v := lt_of_not_le c8
    have hc : cutIds v = 9 := by
      unfold cutIds binEdges
      simp [hv, decide_eq_true (show (0:ℚ) < v by linarith), decide_eq_true (show (10:ℚ) < v by linarith), decide_eq_true (show (20:ℚ) < v by linarith), decide_eq_true (show (30:ℚ) < v by linarith), decide_eq_true (show (40:ℚ) < v by linarith), decide_eq_true (show (50:ℚ) < v by linarith), decide_eq_true (show (60:ℚ) < v by linarith), decide_eq_true (show (70:ℚ) < v by linarith), decide_eq_true (show (80:ℚ) < v by linarith), decide_eq_false (not_lt.mpr (show v ≤ (90:ℚ) by linarith)), decide_eq_false (not_lt.mpr (show v ≤ (100:ℚ) by linarith))]
    simp [binIndex, hc, show ¬ (v < 0) from c0, c1, c2, c3, c4, c5, c6, c7, c8, c9]
  by_cases c10 : v ≤ 100
  · have hgt : (90:ℚ) < v := lt_of_not_le c9
    have hc : cutIds v = 10 := by
      unfold cutIds binEdges
      simp [hv, decide_eq_true (show (0:ℚ) < v by linarith), decide_eq_true (show (10:ℚ) < v by linarith), decide_eq_true (show (20:ℚ) < v by linarith), decide_eq_true (show (30:ℚ) < v by linarith), decide_eq_true (show (40:ℚ) < v by linarith), decide_eq_true (show (50:ℚ) < v by linarith), decide_eq_true (show (60:ℚ) < v by linarith), decide_eq_true (show (70:ℚ) < v by linarith), decide_eq_true (show (80:ℚ) < v by linarith), decide_eq_true (show (90:ℚ) < v by linarith), decide_eq_false (not_lt.mpr (show v ≤ (100:ℚ) by linarith))]
    simp [binIndex, hc, show ¬ (v < 0) from c0, c1, c2, c3, c4, c5, c6, c7, c8, c9, c10]
  · have hgt : (100:ℚ) < v := lt_of_not_le c10
    have hc : cutIds v = 11 := by
      unfold cutIds binEdges
      simp [hv, decide_eq_true (show (0:ℚ) < v by linarith), decide_eq_true (show (10:ℚ) < v by linarith), decide_eq_true (show (20:ℚ) < v by linarith), decide_eq_true (show (30:ℚ) < v by linarith), decide_eq_true (show (40:ℚ) < v by linarith), decide_eq_true (show (50:ℚ) < v by linarith), decide_eq_true (show (60:ℚ) < v by linarith), decide_eq_true (show (70:ℚ) < v by linarith), decide_eq_true (show (80:ℚ) < v by linarith), decide_eq_true (show (90:ℚ) < v by linarith), decide_eq_true (show (100:ℚ) < v by linarith)]
    simp [binIndex, hc, c0, c1, c2, c3, c4, c5, c6, c7, c8, c9, c10]

end Service
namespace Analyzer

set_option maxHeartbeats 1000000 in
/-- Band membership under the CLI binner: bucket `i` is exactly the
right-open band `[10i, 10(i+1))`. -/
lemma binIndex_main_some_iff (v : ℚ) (i : Nat) (hi : i < 10) :
    binIndex v = some i ↔ (10 * i : ℚ) ≤ v ∧ v < 10 * (i + 1) := by
  rw [binIndex_main_eq]
  split_ifs with c0 c1 c2 c3 c4 c5 c6 c7 c8 c9 c10
  · constructor
    · intro h; simp at h
    · rintro ⟨h1, h2⟩
      exfalso
      have hnn : (0:ℚ) ≤ 10 * i := by positivity
      linarith
  · constructor
    · intro h
      obtain rfl : (0 : Nat) = i := Option.some.inj h
      push_cast
      constructor <;> linarith [not_lt.mp c0]
    · rintro ⟨h1, h2⟩
      obtain rfl := band_eq_of_right_open h1 h2 (show (10 * ((0 : Nat) : ℚ)) ≤ v by push_cast; linarith [not_lt.mp c0]) (show v < 10 * (((0 : Nat) : ℚ) + 1) by push_cast; linarith)
      rfl
  · constructor
    · intro h
      obtain rfl : (1 : Nat) = i := Option.some.inj h
      push_cast
      constructor <;> linarith [not_lt.mp c1]
    · rintro ⟨h1, h2⟩
      obtain rfl := band_eq_of_right_open h1 h2 (show (10 * ((1 : Nat) : ℚ)) ≤ v by push_cast; linarith [not_lt.mp c1]) (show v < 10 * (((1 : Nat) : ℚ) + 1) by push_cast; linarith)
      rfl
  · constructor
    · intro h
      obtain rfl : (2 : Nat) = i := Option.some.inj h
      push_cast
      constructor <;> linarith [not_lt.mp c2]
    · rintro ⟨h1, h2⟩
      obtain rfl := band_eq_of_right_open h1 h2 (show (10 * ((2 : Nat) : ℚ)) ≤ v by push_cast; linarith [not_lt.mp c2]) (show v < 10 * (((2 : Nat) : ℚ) + 1) by push_cast; linarith)
      rfl
  · constructor
    · intro h
      obtain rfl : (3 : Nat) = i := Option.some.inj h
      push_cast
      constructor <;> linarith [not_lt.mp c3]
    · rintro ⟨h1, h2⟩
      obtain rfl := band_eq_of_right_open h1 h2 (show (10 * ((3 : Nat) : ℚ)) ≤ v by push_cast; linarith [not_lt.mp c3]) (show v < 10 * (((3 : Nat) : ℚ) + 1) by push_cast; linarith)
      rfl
  · constructor
    · intro h
      obtain rfl : (4 : Nat) = i := Option.some.inj h
      push_cast
      constructor <;> linarith [not_lt.mp c4]
    · rintro ⟨h1, h2⟩
      obtain rfl := band_eq_of_right_open h1 h2 (show (10 * ((4 : Nat) : ℚ)) ≤ v by push_cast; linarith [not_lt.mp c4]) (show v < 10 * (((4 : Nat) : ℚ) + 1) by push_cast; linarith)
      rfl
  · constructor
    · intro h
      obtain rfl : (5 : Nat) = i := Option.some.inj h
      push_cast
      constructor <;> linarith [not_lt.mp c5]
    · rintro ⟨h1, h2⟩
      obtain rfl := band_eq_of_right_open h1 h2 (show (10 * ((5 : Nat) : ℚ)) ≤ v by push_cast; linarith [not_lt.mp c5]) (show v < 10 * (((5 : Nat) : ℚ) + 1) by push_cast; linarith)
      rfl
  · constructor
    · intro h
      obtain rfl : (6 : Nat) = i := Option.some.inj h
      push_cast
      constructor <;> linarith [not_lt.mp c6]
    · rintro ⟨h1, h2⟩
      obtain rfl := band_eq_of_right_open h1 h2 (show (10 * ((6 : Nat) : ℚ)) ≤ v by push_cast; linarith [not_lt.mp c6]) (show v < 10 * (((6 : Nat) : ℚ) + 1) by push_cast; linarith)
      rfl
  · constructor
    · intro h
      obtain rfl : (7 : Nat) = i := Option.some.inj h
      push_cast
      constructor <;> linarith [not_lt.mp c7]
    · rintro ⟨h1, h2⟩
      obtain rfl := band_eq_of_right_open h1 h2 (show (10 * ((7 : Nat) : ℚ)) ≤ v by push_cast; linarith [not_lt.mp c7]) (show v < 10 * (((7 : Nat) : ℚ) + 1) by push_cast; linarith)
      rfl
  · constructor
    · intro h
      obtain rfl : (8 : Nat) = i := Option.some.inj h
      push_cast
      constructor <;> linarith [not_lt.mp c8]
    · rintro ⟨h1, h2⟩
      obtain rfl := band_eq_of_right_open h1 h2 (show (10 * ((8 : Nat) : ℚ)) ≤ v by push_cast; linarith [not_lt.mp c8]) (show v < 10 * (((8 : Nat) : ℚ) + 1) by push_cast; linarith)
      rfl
  · constructor
    · intro h
      obtain rfl : (9 : Nat) = i := Option.some.inj h
      push_cast
      constructor <;> linarith [not_lt.mp c9]
    · rintro ⟨h1, h2⟩
      obtain rfl := band_eq_of_right_open h1 h2 (show (10 * ((9 : Nat) : ℚ)) ≤ v by push_cast; linarith [not_lt.mp c9]) (show v < 10 * (((9 : Nat) : ℚ) + 1) by push_cast; linarith)
      rfl
  · constructor
    · intro h; simp at h
    · rintro ⟨h1, h2⟩
      exfalso
      have h9 : (i : ℚ) ≤ 9 := by exact_mod_cast Nat.lt_succ_iff.mp hi
      linarith [not_lt.mp c10]

set_option maxHeartbeats 1000000 in
/-- Under the CLI binner a percentage in `[0,100]` is dropped (`NaN` bin)
exactly when it is exactly 100. -/
lemma binIndex_none_iff (v : ℚ) (h0 : 0 ≤ v) (h1 : v ≤ 100) :
    binIndex v = none ↔ v = 100 := by
  rw [binIndex_main_eq]
  split_ifs with c0 c1 c2 c3 c4 c5 c6 c7 c8 c9 c10
  · exact absurd c0 (not_lt.mpr h0)
  · constructor
    · intro h; simp at h
    · intro h; subst h; exact absurd c1 (by norm_num)
  · constructor
    · intro h; simp at h
    · intro h; subst h; exact absurd c2 (by norm_num)
  · constructor
    · intro h; simp at h
    · intro h; subst h; exact absurd c3 (by norm_num)
  · constructor
    · intro h; simp at h
    · intro h; subst h; exact absurd c4 (by norm_num)
  · constructor
    · intro h; simp at h
    · intro h; subst h; exact absurd c5 (by norm_num)
  · constructor
    · intro h; simp at h
    · intro h; subst h; exact absurd c6 (by norm_num)
  · constructor
    · intro h; simp at h
    · intro h; subst h; exact absurd c7 (by norm_num)
  · constructor
    · intro h; simp at h
    · intro h; subst h; exact absurd c8 (by norm_num)
  · constructor
    · intro h; simp at h
    · intro h; subst h; exact absurd c9 (by norm_num)
  · constructor
    · intro h; simp at h
    · intro h; subst h; exact absurd c10 (by norm_num)
  · exact ⟨fun _ => le_antisymm h1 (not_lt.mp c10), fun _ => rfl⟩

end Analyzer

namespace Service

set_option maxHeartbeats 1000000 in
/-- Band membership under the service binner: bucket 0 is the closed band
`[0,10]`; bucket `i ≥ 1` is the left-open band `(10i, 10(i+1)]`. -/
lemma binIndex_service_some_iff (v : ℚ) (i : Nat) (hi : i < 10) :
    binIndex v = some i ↔
      ((i = 0 ∧ 0 ≤ v ∧ v ≤ 10) ∨ ((10 * i : ℚ) < v ∧ v ≤ 10 * (i + 1))) := by
  rw [binIndex_service_eq]
  split_ifs with c0 c1 c2 c3 c4 c5 c6 c7 c8 c9 c10
  · constructor
    · intro h; simp at h
    · rintro (⟨_, h2, _⟩ | ⟨h1, _⟩)
      · exfalso; linarith
      · exfalso
        have hnn : (0:ℚ) ≤ 10 * i := by positivity
        linarith
  · constructor
    · intro h
      obtain rfl : (0 : Nat) = i := Option.some.inj h
      exact Or.inl ⟨rfl, not_lt.mp c0, c1⟩
    · rintro (⟨rfl, _, _⟩ | ⟨h1, h2⟩)
      · rfl
      · have hi1 : (i : ℚ) < 1 := by linarith
        have : i < 1 := by exact_mod_cast hi1
        have hz : i = 0 := by omega
        subst hz
        rfl
  · constructor
    · intro h
      obtain rfl : (1 : Nat) = i := Option.some.inj h
      refine Or.inr ⟨?_, ?_⟩ <;> push_cast <;> linarith [not_le.mp c1]
    · rintro (⟨rfl, _, h10⟩ | ⟨h1, h2⟩)
      · exact absurd h10 (not_le.mpr (by linarith [not_le.mp c1]))
      · obtain rfl := band_eq_of_left_open h1 h2 (show (10 * ((1 : Nat) : ℚ)) < v by push_cast; linarith [not_le.mp c1]) (show v ≤ 10 * (((1 : Nat) : ℚ) + 1) by push_cast; linarith)
        rfl
  · constructor
    · intro h
      obtain rfl : (2 : Nat) = i := Option.some.inj h
      refine Or.inr ⟨?_, ?_⟩ <;> push_cast <;> linarith [not_le.mp c2]
    · rintro (⟨rfl, _, h10⟩ | ⟨h1, h2⟩)
      · exact absurd h10 (not_le.mpr (by linarith [not_le.mp c2]))
      · obtain rfl := band_eq_of_left_open h1 h2 (show (10 * ((2 : Nat) : ℚ)) < v by push_cast; linarith [not_le.mp c2]) (show v ≤ 10 * (((2 : Nat) : ℚ) + 1) by push_cast; linarith)
        rfl
  · constructor
    · intro h
      obtain rfl : (3 : Nat) = i := Option.some.inj h
      refine Or.inr ⟨?_, ?_⟩ <;> push_cast <;> linarith [not_le.mp c3]
    · rintro (⟨rfl, _, h10⟩ | ⟨h1, h2⟩)
      · exact absurd h10 (not_le.mpr (by linarith [not_le.mp c3]))
      · obtain rfl := band_eq_of_left_open h1 h2 (show (10 * ((3 : Nat) : ℚ)) < v by push_cast; linarith [not_le.mp c3]) (show v ≤ 10 * (((3 : Nat) : ℚ) + 1) by push_cast; linarith)
        rfl
  · constructor
    · intro h
      obtain rfl : (4 : Nat) = i := Option.some.inj h
      refine Or.inr ⟨?_, ?_⟩ <;> push_cast <;> linarith [not_le.mp c4]
    · rintro (⟨rfl, _, h10⟩ | ⟨h1, h2⟩)
      · exact absurd h10 (not_le.mpr (by linarith [not_le.mp c4]))
      · obtain rfl := band_eq_of_left_open h1 h2 (show (10 * ((4 : Nat) : ℚ)) < v by push_cast; linarith [not_le.mp c4]) (show v ≤ 10 * (((4 : Nat) : ℚ) + 1) by push_cast; linarith)
        rfl
  · constructor
    · intro h
      obtain rfl : (5 : Nat) = i := Option.some.inj h
      refine Or.inr ⟨?_, ?_⟩ <;> push_cast <;> linarith [not_le.mp c5]
    · rintro (⟨rfl, _, h10⟩ | ⟨h1, h2⟩)
      · exact absurd h10 (not_le.mpr (by linarith [not_le.mp c5]))
      · obtain rfl := band_eq_of_left_open h1 h2 (show (10 * ((5 : Nat) : ℚ)) < v by push_cast; linarith [not_le.mp c5]) (show v ≤ 10 * (((5 : Nat) : ℚ) + 1) by push_cast; linarith)
        rfl
  · constructor
    · intro h
      obtain rfl : (6 : Nat) = i := Option.some.inj h
      refine Or.inr ⟨?_, ?_⟩ <;> push_cast <;> linarith [not_le.mp c6]
    · rintro (⟨rfl, _, h10⟩ | ⟨h1, h2⟩)
      · exact absurd h10 (not_le.mpr (by linarith [not_le.mp c6]))
      · obtain rfl := band_eq_of_left_open h1 h2 (show (10 * ((6 : Nat) : ℚ)) < v by push_cast; linarith [not_le.mp c6]) (show v ≤ 10 * (((6 : Nat) : ℚ) + 1) by push_cast; linarith)
        rfl
  · constructor
    · intro h
      obtain rfl : (7 : Nat) = i := Option.some.inj h
      refine Or.inr ⟨?_, ?_⟩ <;> push_cast <;> linarith [not_le.mp c7]
    · rintro (⟨rfl, _, h10⟩ | ⟨h1, h2⟩)
      · exact absurd h10 (not_le.mpr (by linarith [not_le.mp c7]))
      · obtain rfl := band_eq_of_left_open h1 h2 (show (10 * ((7 : Nat) : ℚ)) < v by push_cast; linarith [not_le.mp c7]) (show v ≤ 10 * (((7 : Nat) : ℚ) + 1) by push_cast; linarith)
        rfl
  · constructor
    · intro h
      obtain rfl : (8 : Nat) = i := Option.some.inj h
      refine Or.inr ⟨?_, ?_⟩ <;> push_cast <;> linarith [not_le.mp c8]
    · rintro (⟨rfl, _, h10⟩ | ⟨h1, h2⟩)
      · exact absurd h10 (not_le.mpr (by linarith [not_le.mp c8]))
      · obtain rfl := band_eq_of_left_open h1 h2 (show (10 * ((8 : Nat) : ℚ)) < v by push_cast; linarith [not_le.mp c8]) (show v ≤ 10 * (((8 : Nat) : ℚ) + 1) by push_cast; linarith)
        rfl
  · constructor
    · intro h
      obtain rfl : (9 : Nat) = i := Option.some.inj h
      refine Or.inr ⟨?_, ?_⟩ <;> push_cast <;> linarith [not_le.mp c9]
    · rintro (⟨rfl, _, h10⟩ | ⟨h1, h2⟩)
      · exact absurd h10 (not_le.mpr (by linarith [not_le.mp c9]))
      · obtain rfl := band_eq_of_left_open h1 h2 (show (10 * ((9 : Nat) : ℚ)) < v by push_cast; linarith [not_le.mp c9]) (show v ≤ 10 * (((9 : Nat) : ℚ) + 1) by push_cast; linarith)
        rfl
  · constructor
    · intro h; simp at h
    · rintro (⟨_, _, h10⟩ | ⟨h1, h2⟩)
      · exfalso; linarith [not_le.mp c10]
      · exfalso
        have h9 : (i : ℚ) ≤ 9 := by exact_mod_cast Nat.lt_succ_iff.mp hi
        linarith [not_le.mp c10]

set_option maxHeartbeats 1000000 in
/-- The service binner is total on `[0,100]`: every rate lands in a
bucket. -/
lemma binIndex_total (v : ℚ) (h0 : 0 ≤ v) (h1 : v ≤ 100) :
    (binIndex v).isSome := by
  rw [binIndex_service_eq]
  split_ifs with c0 c1 c2 c3 c4 c5 c6 c7 c8 c9 c10 <;>
    first
      | rfl
      | exact absurd c0 (not_lt.mpr h0)
      | exact absurd h1 c10

end Service
/-! ### C1: bucket boundary policy -/

/-- C1 counterexample: the claim's single boundary rule fails on both binner
variants.  The CLI binner (`right=False`) does put 10.0% in "10-20%", but
drops exactly 100.0% into no band at all (`NaN`), not "90-100%"; the service
binner (`right=True, include_lowest=True`) does put 100.0% in "90-100%", but
puts exactly 10.0% in "0-10%", not "10-20%". -/
theorem binner_boundary_counterexample :
    Analyzer.binIndex 100 = none ∧ ¬ Analyzer.binIndex 100 = some 9 ∧
    Service.binIndex 10 = some 0 ∧ ¬ Service.binIndex 10 = some 1 ∧
    Analyzer.binIndex 10 = some 1 ∧ Service.binIndex 100 = some 9 := by
  decide

/-- C1 amended: each variant resolves boundaries by its own explicit rule.
The CLI binner uses right-open bands `[10i, 10(i+1))` for all ten buckets
(so 10.0% is in "10-20%") and maps values outside `[0,100)` — in particular
exactly 100.0% — to no band; the service binner uses `[0,10]` for the first
bucket and left-open bands `(10i, 10(i+1)]` otherwise (so 10.0% is in
"0-10%" and 100.0% in "90-100%"), and every rate in `[0,100]` falls in
exactly one band. -/
theorem binner_boundary_amended (v : ℚ) (i : Nat) (hi : i < 10) :
    (Analyzer.binIndex v = some i ↔ (10 * i : ℚ) ≤ v ∧ v < 10 * (i + 1)) ∧
    (0 ≤ v → v ≤ 100 → (Analyzer.binIndex v = none ↔ v = 100)) ∧
    (Service.binIndex v = some i ↔
      ((i = 0 ∧ 0 ≤ v ∧ v ≤ 10) ∨ ((10 * i : ℚ) < v ∧ v ≤ 10 * (i + 1)))) ∧
    (0 ≤ v → v ≤ 100 → (Service.binIndex v).isSome) :=
  ⟨Analyzer.binIndex_main_some_iff v i hi,
   fun h0 h1 => Analyzer.binIndex_none_iff v h0 h1,
   Service.binIndex_service_some_iff v i hi,
   fun h0 h1 => Service.binIndex_total v h0 h1⟩

/-- C1 witness: the amended boundary rule evaluated at the boundary points
10.0 and 100.0. -/
theorem binner_boundary_amended_witness :
    Analyzer.binIndex 10 = some 1 ∧ Service.binIndex 100 = some 9 :=
  ⟨((binner_boundary_amended 10 1 (by norm_num)).1).mpr (by norm_num),
   ((binner_boundary_amended 100 9 (by norm_num)).2.2.1).mpr
     (Or.inr (by norm_num))⟩

/-! ### C4: empty input handling -/

/-- C4 counterexample: on the empty input, `get_summary_statistics` sets
`avg_user_failure_rate = np.mean([])`, which is `NaN` (modelled `none`), not
0.0, and the CLI `run_analysis` reports a failure (prints "No data found" and
returns exit code 1) instead of producing an empty report. -/
theorem empty_input_counterexample :
    (Analyzer.get_summary_statistics []).avg_user_failure_rate = none ∧
    ¬ (Analyzer.get_summary_statistics []).avg_user_failure_rate = some 0 ∧
    Analyzer.run_analysis_cli [] = (1, none) := by
  decide

/-- C4 amended: on empty input no exception is raised and all guarded summary
statistics (median, max, min, std, overall rate) are 0.0 with zero users, but
the unguarded mean is `NaN` (`none`), and the CLI entry point treats the empty
result as a failure (exit code 1); the service variant's `run_analysis`
returns a success payload with all stats zero. -/
theorem empty_input_amended :
    Analyzer.get_summary_statistics [] =
      { total_users := 0, total_sessions := 0, total_failures := 0
        overall_failure_rate := 0, avg_user_failure_rate := none
        median_user_failure_rate := 0, max_user_failure_rate := 0
        min_user_failure_rate := 0, std_sq_user_failure_rate := 0 } ∧
    Analyzer.run_analysis_cli [] = (1, none) ∧
    Service.run_analysis_stats [] =
      { success := true, total_users := 0, total_sessions := 0
        failed_sessions := 0, overall_failure_rate := 0 } := by
  decide

/-! ### C5: report-cache freshness decision -/

/-- A cache file check succeeds exactly when the file exists and its age is
within the TTL. -/
lemma is_cache_valid_iff (now ttl : ℚ) (m : Option ℚ) :
    Server.is_cache_valid now ttl m = true ↔
      ∃ t, m = some t ∧ now - t < ttl * 3600 := by
  cases m with
  | none => simp [Server.is_cache_valid]
  | some t => simp [Server.is_cache_valid]

/-- C5: the cache decision is `reuse` exactly when the effective
`force_refresh` flag (request flag or `FORCE_REFRESH` env) is false and each
of the four artifact files independently exists with a last-modified
timestamp within the TTL of now; any request with `force_refresh = true`
yields `regenerate` regardless of artifact age. -/
theorem cache_resolve_reuse_iff (reqForce envForce : Bool)
    (m1 m2 m3 m4 : Option ℚ) (now ttl : ℚ) :
    (Server.analyze_cache_decision reqForce envForce m1 m2 m3 m4 now ttl =
        Server.CacheDecision.reuse ↔
      (reqForce = false ∧ envForce = false ∧
        (∃ t, m1 = some t ∧ now - t < ttl * 3600) ∧
        (∃ t, m2 = some t ∧ now - t < ttl * 3600) ∧
        (∃ t, m3 = some t ∧ now - t < ttl * 3600) ∧
        (∃ t, m4 = some t ∧ now - t < ttl * 3600))) ∧
    (reqForce = true →
      Server.analyze_cache_decision reqForce envForce m1 m2 m3 m4 now ttl =
        Server.CacheDecision.regenerate) := by
  unfold Server.analyze_cache_decision
  cases reqForce <;> cases envForce <;>
    simp [Bool.and_eq_true, is_cache_valid_iff] <;>
    first
      | tauto
      | (split_ifs <;> simp_all)

/-- C5 witness: a forced request regenerates even with four fresh files, and
an unforced request with four fresh files reuses. -/
theorem cache_resolve_reuse_iff_witness :
    Server.analyze_cache_decision true false (some 0) (some 0) (some 0)
        (some 0) 1 24 = Server.CacheDecision.regenerate ∧
    Server.analyze_cache_decision false false (some 0) (some 0) (some 0)
        (some 0) 1 24 = Server.CacheDecision.reuse :=
  ⟨(cache_resolve_reuse_iff true false (some 0) (some 0) (some 0) (some 0)
      1 24).2 rfl,
   (cache_resolve_reuse_iff false false (some 0) (some 0) (some 0) (some 0)
      1 24).1.mpr
     ⟨rfl, rfl, ⟨0, rfl, by norm_num⟩, ⟨0, rfl, by norm_num⟩,
      ⟨0, rfl, by norm_num⟩, ⟨0, rfl, by norm_num⟩⟩⟩

/-! ### C10: service-variant truncation before summary -/

/-- The processed frame never has more rows than `max_users`. -/
lemma process_data_length_le (records : List SessionRecord) (max_users : Nat) :
    (Service.process_data records max_users).length ≤ max_users := by
  unfold Service.process_data
  split_ifs
  · simp
  · rw [List.length_take]
    exact min_le_left _ _

/-- C10: the service pipeline truncates to the top `max_users` rows (source
default 15) before the summary is derived, so `total_users ≤ max_users`, and
the returned totals are pooled over the retained rows only: for the two-user
input `[(1,"a",null),(2,"b","c")]`, `max_users = 1` keeps only the failing
user and reports a 100% overall rate, while `max_users = 2` (no truncation)
reports the full-corpus 50%. -/
theorem service_truncation_before_summary (records : List SessionRecord)
    (max_users : Nat) :
    (Service.run_analysis_stats records max_users).total_users ≤ max_users ∧
    Service.run_analysis_stats [⟨1, "a", none⟩, ⟨2, "b", some "c"⟩] 1 =
      { success := true, total_users := 1, total_sessions := 1
        failed_sessions := 1, overall_failure_rate := 100 } ∧
    Service.run_analysis_stats [⟨1, "a", none⟩, ⟨2, "b", some "c"⟩] 2 =
      { success := true, total_users := 2, total_sessions := 2
        failed_sessions := 1, overall_failure_rate := 50 } := by
  refine ⟨process_data_length_le records max_users, by decide, by decide⟩

/-! ### Partition counting -/

/-- Summing the sizes of the groups of a `groupby` over all (distinct) keys
gives back the number of rows. -/
lemma sum_map_filter_length {β κ : Type} [BEq κ] [LawfulBEq κ] (key : β → κ) :
    ∀ (keys : List κ) (l : List β), keys.Nodup → (∀ b ∈ l, key b ∈ keys) →
      (keys.map (fun k => (l.filter (fun b => key b == k)).length)).sum
        = l.length := by
  intro keys
  induction keys with
  | nil =>
    intro l _ hcov
    cases l with
    | nil => simp
    | cons b bs => exact absurd (hcov b (by simp)) (by simp)
  | cons k ks ih =>
    intro l hnd hcov
    rw [List.map_cons, List.sum_cons]
    have hks : ∀ k' ∈ ks,
        l.filter (fun b => key b == k')
          = (l.filter (fun b => !(key b == k))).filter (fun b => key b == k') := by
      intro k' hk'
      rw [List.filter_filter]
      apply List.filter_congr
      intro b _
      by_cases hb : key b == k'
      · have hbk : key b = k' := eq_of_beq hb
        have hkk : k' ≠ k := by
          rintro rfl
          exact (List.nodup_cons.mp hnd).1 hk'
        have : (key b == k) = false := beq_eq_false_iff_ne.mpr (by rw [hbk]; exact hkk)
        simp [hb, this]
      · simp [hb]
    have hmap : (ks.map (fun k' => (l.filter (fun b => key b == k')).length))
        = ks.map (fun k' =>
            ((l.filter (fun b => !(key b == k))).filter
              (fun b => key b == k')).length) := by
      apply List.map_congr_left
      intro k' hk'
      rw [hks k' hk']
    rw [hmap, ih (l.filter (fun b => !(key b == k))) (List.nodup_cons.mp hnd).2 ?_]
    · have := List.length_eq_length_filter_add (l := l) (fun b => key b == k)
      simpa using this.symm
    · intro b hb
      have hbl := List.mem_filter.mp hb
      have hcb := hcov b hbl.1
      have hne : key b ≠ k := by
        intro hkb
        have : (key b == k) = true := beq_iff_eq.mpr hkb
        simp [this] at hbl
      rcases List.mem_cons.mp hcb with h | h
      · exact absurd h hne
      · exact h

/-- `sortedUniqueNames` has no duplicate names. -/
lemma sortedUniqueNames_nodup (names : List String) :
    (sortedUniqueNames names).Nodup :=
  ((List.perm_insertionSort _ names.dedup).symm.nodup names.nodup_dedup)

/-- Every input name occurs among the sorted unique names. -/
lemma mem_sortedUniqueNames {names : List String} {n : String}
    (h : n ∈ names) : n ∈ sortedUniqueNames names := by
  unfold sortedUniqueNames
  rw [List.mem_insertionSort]
  exact List.mem_dedup.mpr h

namespace Analyzer

/-- The sorted output is a permutation of the grouped stats. -/
lemma calculate_failure_rates_perm (records : List SessionRecord) :
    List.Perm (calculate_failure_rates records) (groupedStats records) :=
  List.perm_insertionSort _ _

/-- The names of the grouped stats are exactly the sorted unique stripped
names. -/
lemma groupedStats_map_name (records : List SessionRecord) :
    (groupedStats records).map (fun s => s.name)
      = sortedUniqueNames ((records.map
          (fun r => { r with name := pyStrip r.name })).map (fun r => r.name)) := by
  unfold groupedStats
  rw [List.map_map]
  have h : ((fun s : UserFailureStats => s.name) ∘ mkStat (records.map
      (fun r => { r with name := pyStrip r.name }))) = @id String := rfl
  rw [h, List.map_id]

/-- The group totals sum to the number of input records. -/
lemma groupedStats_sum_total (records : List SessionRecord) :
    ((groupedStats records).map (fun s => s.total_sessions)).sum
      = records.length := by
  unfold groupedStats
  rw [List.map_map]
  have h := sum_map_filter_length (fun r : SessionRecord => r.name)
    (sortedUniqueNames ((records.map
      (fun r => { r with name := pyStrip r.name })).map (fun r => r.name)))
    (records.map (fun r => { r with name := pyStrip r.name }))
    (sortedUniqueNames_nodup _)
    (fun b hb => mem_sortedUniqueNames (List.mem_map_of_mem _ hb))
  calc ((sortedUniqueNames _).map
        ((fun s => s.total_sessions) ∘ mkStat (records.map
          (fun r => { r with name := pyStrip r.name })))).sum
      = records.length := by
        rw [show ((fun s : UserFailureStats => s.total_sessions) ∘ mkStat (records.map
            (fun r => ({ r with name := pyStrip r.name } : SessionRecord))))
          = (fun n => ((records.map
              (fun r => ({ r with name := pyStrip r.name } : SessionRecord))).filter
                (fun b => b.name == n)).length) from rfl]
        rw [h, List.length_map]

/-- The group failure counts sum to the number of failed input records. -/
lemma groupedStats_sum_failed (records : List SessionRecord) :
    ((groupedStats records).map (fun s => s.failed_sessions)).sum
      = (records.filter (fun r => r.exotel_call_sid.isNone)).length := by
  unfold groupedStats
  rw [List.map_map]
  set rs := records.map (fun r => { r with name := pyStrip r.name }) with hrs
  have hswap : ∀ n : String,
      ((rs.filter (fun b => b.name == n)).filter
          (fun r => r.exotel_call_sid.isNone)).length
        = ((rs.filter (fun r => r.exotel_call_sid.isNone)).filter
            (fun b => b.name == n)).length := by
    intro n
    rw [List.filter_filter, List.filter_filter]
    congr 1
    apply List.filter_congr
    intro b _
    rw [Bool.and_comm]
  have h := sum_map_filter_length (fun r : SessionRecord => r.name)
    (sortedUniqueNames (rs.map (fun r => r.name)))
    (rs.filter (fun r => r.exotel_call_sid.isNone))
    (sortedUniqueNames_nodup _)
    (fun b hb =>
      mem_sortedUniqueNames (List.mem_map_of_mem _ (List.mem_of_mem_filter hb)))
  calc ((sortedUniqueNames (rs.map (fun r => r.name))).map
        ((fun s => s.failed_sessions) ∘ mkStat rs)).sum
      = ((sortedUniqueNames (rs.map (fun r => r.name))).map
          (fun n => ((rs.filter (fun r => r.exotel_call_sid.isNone)).filter
            (fun b => b.name == n)).length)).sum := by
        apply congrArg
        apply List.map_congr_left
        intro n _
        exact hswap n
    _ = (rs.filter (fun r => r.exotel_call_sid.isNone)).length := h
    _ = (records.filter (fun r => r.exotel_call_sid.isNone)).length := by
        rw [hrs, ← List.countP_eq_length_filter, ← List.countP_eq_length_filter,
          List.countP_map]
        rfl

/-- The sorted stats sum totals like the grouped stats. -/
lemma calculate_failure_rates_sum_total (records : List SessionRecord) :
    ((calculate_failure_rates records).map (fun s => s.total_sessions)).sum
      = records.length := by
  rw [((calculate_failure_rates_perm records).map _).sum_eq,
    groupedStats_sum_total]

/-- The sorted stats sum failures like the grouped stats. -/
lemma calculate_failure_rates_sum_failed (records : List SessionRecord) :
    ((calculate_failure_rates records).map (fun s => s.failed_sessions)).sum
      = (records.filter (fun r => r.exotel_call_sid.isNone)).length := by
  rw [((calculate_failure_rates_perm records).map _).sum_eq,
    groupedStats_sum_failed]

end Analyzer

/-! ### C3: pooled overall failure rate -/

/-- C3 counterexample: the claim's "distinct whenever user session volumes
differ" is too strong.  With user "a" at 1 failure / 2 sessions and user "b"
at 2 failures / 4 sessions, the volumes differ (4 vs 2) yet the pooled rate
(3/6 = 1/2) equals the unweighted mean of the per-user rates
((1/2 + 1/2)/2 = 1/2). -/
theorem pooled_vs_mean_counterexample :
    ((Analyzer.calculate_failure_rates
        [⟨1, "a", none⟩, ⟨2, "a", some "c"⟩, ⟨3, "b", none⟩, ⟨4, "b", none⟩,
         ⟨5, "b", some "c"⟩, ⟨6, "b", some "c"⟩]).map
          (fun s => s.total_sessions) = [4, 2]) ∧
    (Analyzer.get_summary_statistics (Analyzer.calculate_failure_rates
        [⟨1, "a", none⟩, ⟨2, "a", some "c"⟩, ⟨3, "b", none⟩, ⟨4, "b", none⟩,
         ⟨5, "b", some "c"⟩, ⟨6, "b", some "c"⟩])).avg_user_failure_rate
      = some (Analyzer.get_summary_statistics (Analyzer.calculate_failure_rates
        [⟨1, "a", none⟩, ⟨2, "a", some "c"⟩, ⟨3, "b", none⟩, ⟨4, "b", none⟩,
         ⟨5, "b", some "c"⟩, ⟨6, "b", some "c"⟩])).overall_failure_rate := by
  decide

/-- C3 amended: for every nonempty input, `overall_failure_rate` is the
pooled ratio `Σ failed / Σ total`, which equals
(failed records) / (all records); the pooled rate CAN differ from the
unweighted per-user mean when volumes differ (user "a" 1/1, user "b" 0/3
give pooled 1/4 but mean 1/2), though equal per-user rates with unequal
volumes make them coincide. -/
theorem summary_overall_is_pooled (records : List SessionRecord)
    (h : records ≠ []) :
    (Analyzer.get_summary_statistics
        (Analyzer.calculate_failure_rates records)).overall_failure_rate
      = ((records.filter (fun r => r.exotel_call_sid.isNone)).length : ℚ)
          / (records.length : ℚ) ∧
    (Analyzer.get_summary_statistics (Analyzer.calculate_failure_rates
        [⟨1, "a", none⟩, ⟨2, "b", some "c"⟩, ⟨3, "b", some "c"⟩,
         ⟨4, "b", some "c"⟩])).overall_failure_rate = 1/4 ∧
    (Analyzer.get_summary_statistics (Analyzer.calculate_failure_rates
        [⟨1, "a", none⟩, ⟨2, "b", some "c"⟩, ⟨3, "b", some "c"⟩,
         ⟨4, "b", some "c"⟩])).avg_user_failure_rate = some (1/2) ∧
    ((1 : ℚ)/4 ≠ 1/2) := by
  refine ⟨?_, by decide, by decide, by norm_num⟩
  have hts := Analyzer.calculate_failure_rates_sum_total records
  have htf := Analyzer.calculate_failure_rates_sum_failed records
  simp only [Analyzer.get_summary_statistics]
  rw [hts, htf, if_pos (List.length_pos.mpr h)]

/-- C3 witness: the pooled formula evaluated on a single failed record. -/
theorem summary_overall_is_pooled_witness :
    (Analyzer.get_summary_statistics (Analyzer.calculate_failure_rates
        [⟨1, "a", none⟩])).overall_failure_rate
      = ((([⟨1, "a", none⟩] : List SessionRecord).filter
          (fun r => r.exotel_call_sid.isNone)).length : ℚ)
          / (([⟨1, "a", none⟩] : List SessionRecord).length : ℚ) :=
  (summary_overall_is_pooled [⟨1, "a", none⟩] (by decide)).1

/-! ### C9: per-user stats invariants -/

/-- Every stat produced by `calculate_failure_rates` is `mkStat` of some
emitted group name. -/
lemma mem_calculate_failure_rates {records : List SessionRecord}
    {s : Analyzer.UserFailureStats}
    (hs : s ∈ Analyzer.calculate_failure_rates records) :
    ∃ n, n ∈ sortedUniqueNames ((records.map
        (fun r => ({ r with name := pyStrip r.name } : SessionRecord))).map
          (fun r => r.name)) ∧
      s = Analyzer.mkStat (records.map
        (fun r => ({ r with name := pyStrip r.name } : SessionRecord))) n := by
  unfold Analyzer.calculate_failure_rates Analyzer.groupedStats at hs
  rw [List.mem_insertionSort] at hs
  obtain ⟨n, hn, rfl⟩ := List.mem_map.mp hs
  exact ⟨n, hn, rfl⟩

/-- A name emitted by `sortedUniqueNames` names a nonempty group. -/
lemma group_nonempty {rs : List SessionRecord} {n : String}
    (hn : n ∈ sortedUniqueNames (rs.map (fun r => r.name))) :
    0 < (Analyzer.groupFor rs n).length := by
  unfold sortedUniqueNames at hn
  rw [List.mem_insertionSort] at hn
  obtain ⟨r, hr, hrn⟩ := List.mem_map.mp (List.mem_dedup.mp hn)
  have hmem : r ∈ Analyzer.groupFor rs n :=
    List.mem_filter.mpr ⟨hr, beq_iff_eq.mpr hrn⟩
  exact List.length_pos.mpr (List.ne_nil_of_mem hmem)

/-- C9: every `UserFailureStats` produced by the aggregator satisfies
`failed + success = total`, `failure_rate + success_rate = 1` (exactly, in
the rational model of the float arithmetic), `total ≥ 1`, and
`failed ≤ total`. -/
theorem stats_internal_invariants (records : List SessionRecord)
    (s : Analyzer.UserFailureStats)
    (hs : s ∈ Analyzer.calculate_failure_rates records) :
    s.failed_sessions + s.success_sessions = s.total_sessions ∧
    s.failure_rate + s.success_rate = 1 ∧
    1 ≤ s.total_sessions ∧ s.failed_sessions ≤ s.total_sessions := by
  obtain ⟨n, hn, rfl⟩ := mem_calculate_failure_rates hs
  set rs := records.map
    (fun r => ({ r with name := pyStrip r.name } : SessionRecord)) with hrs
  have hn' : n ∈ sortedUniqueNames (rs.map (fun r => r.name)) := hn
  have hpos : 0 < (Analyzer.groupFor rs n).length := group_nonempty hn'
  have hfl : ((Analyzer.groupFor rs n).filter
      (fun r => r.exotel_call_sid.isNone)).length
        ≤ (Analyzer.groupFor rs n).length := List.length_filter_le _ _
  have htQ : ((Analyzer.groupFor rs n).length : ℚ) ≠ 0 :=
    Nat.cast_ne_zero.mpr (Nat.pos_iff_ne_zero.mp hpos)
  refine ⟨?_, ?_, hpos, hfl⟩
  · simp only [Analyzer.mkStat]
    omega
  · simp only [Analyzer.mkStat, if_pos hpos]
    rw [div_add_div_same, Nat.cast_sub hfl]
    rw [show ((((Analyzer.groupFor rs n).filter
        (fun r => r.exotel_call_sid.isNone)).length : ℚ)
      + (((Analyzer.groupFor rs n).length : ℚ)
        - (((Analyzer.groupFor rs n).filter
            (fun r => r.exotel_call_sid.isNone)).length : ℚ)))
      = ((Analyzer.groupFor rs n).length : ℚ) from by ring]
    exact div_self htQ

/-- C9 witness: the invariants evaluated on the singleton failed record. -/
theorem stats_internal_invariants_witness :
    ({ name := "a", total_sessions := 1, failed_sessions := 1,
       failure_rate := 1, success_sessions := 0, success_rate := 0 } :
        Analyzer.UserFailureStats).failed_sessions
        + ({ name := "a", total_sessions := 1, failed_sessions := 1,
             failure_rate := 1, success_sessions := 0, success_rate := 0 } :
              Analyzer.UserFailureStats).success_sessions
      = ({ name := "a", total_sessions := 1, failed_sessions := 1,
           failure_rate := 1, success_sessions := 0, success_rate := 0 } :
            Analyzer.UserFailureStats).total_sessions ∧
    ({ name := "a", total_sessions := 1, failed_sessions := 1,
       failure_rate := 1, success_sessions := 0, success_rate := 0 } :
        Analyzer.UserFailureStats).failure_rate
        + ({ name := "a", total_sessions := 1, failed_sessions := 1,
             failure_rate := 1, success_sessions := 0, success_rate := 0 } :
              Analyzer.UserFailureStats).success_rate = 1 ∧
    1 ≤ ({ name := "a", total_sessions := 1, failed_sessions := 1,
           failure_rate := 1, success_sessions := 0, success_rate := 0 } :
            Analyzer.UserFailureStats).total_sessions ∧
    ({ name := "a", total_sessions := 1, failed_sessions := 1,
       failure_rate := 1, success_sessions := 0, success_rate := 0 } :
        Analyzer.UserFailureStats).failed_sessions
      ≤ ({ name := "a", total_sessions := 1, failed_sessions := 1,
           failure_rate := 1, success_sessions := 0, success_rate := 0 } :
            Analyzer.UserFailureStats).total_sessions :=
  stats_internal_invariants [⟨1, "a", none⟩] _ (by decide)

/-! ### C7: grouping by trimmed name -/

/-- C7 counterexample: the service variant's `process_data` groups by the raw
(untrimmed) name, so two records whose names differ only by trailing
whitespace produce two distinct users, not one. -/
theorem trimmed_grouping_counterexample :
    pyStrip "amy " = pyStrip "amy" ∧
    (Service.process_data [⟨1, "amy", none⟩, ⟨2, "amy ", some "c"⟩]).map
        (fun r => r.user) = ["amy", "amy "] ∧
    (Service.process_data [⟨1, "amy", none⟩, ⟨2, "amy ", some "c"⟩]).length
      = 2 := by
  decide

/-- C7 amended: the CLI aggregator (`src/analyzer.py`) strips names before
grouping, so records whose names differ only by surrounding whitespace are
counted toward the same user, each name appears at most once, and every
record is counted under its stripped name; the service variant's
`process_data` groups by the raw name, so whitespace variants remain
distinct users. -/
theorem trimmed_grouping_amended (records : List SessionRecord) :
    ((Analyzer.calculate_failure_rates records).map (fun s => s.name)).Nodup ∧
    (∀ s ∈ Analyzer.calculate_failure_rates records,
      s.total_sessions
        = (records.filter (fun r => pyStrip r.name == s.name)).length) ∧
    (∀ r ∈ records, pyStrip r.name
        ∈ (Analyzer.calculate_failure_rates records).map (fun s => s.name)) := by
  have hperm : List.Perm
      ((Analyzer.calculate_failure_rates records).map (fun s => s.name))
      ((Analyzer.groupedStats records).map (fun s => s.name)) :=
    (Analyzer.calculate_failure_rates_perm records).map _
  refine ⟨?_, ?_, ?_⟩
  · apply hperm.symm.nodup
    rw [Analyzer.groupedStats_map_name]
    exact sortedUniqueNames_nodup _
  · intro s hs
    obtain ⟨n, _, rfl⟩ := mem_calculate_failure_rates hs
    show (Analyzer.groupFor _ n).length = _
    unfold Analyzer.groupFor
    rw [← List.countP_eq_length_filter, ← List.countP_eq_length_filter,
      List.countP_map]
    rfl
  · intro r hr
    rw [hperm.mem_iff, Analyzer.groupedStats_map_name]
    exact mem_sortedUniqueNames (List.mem_map_of_mem _
      (List.mem_map_of_mem _ hr))

/-- C7 witness: the end-to-end merge of "Amy" and "amy " is exercised by the
scratch aggregation of the spec's own example input; here the amended theorem
is instantiated on it. -/
theorem trimmed_grouping_amended_witness :
    (∀ s ∈ Analyzer.calculate_failure_rates
        [⟨1, "Amy", none⟩, ⟨2, "Amy", some "c1"⟩, ⟨3, "Amy ", some "c2"⟩],
      s.total_sessions
        = (([⟨1, "Amy", none⟩, ⟨2, "Amy", some "c1"⟩, ⟨3, "Amy ", some "c2"⟩] :
            List SessionRecord).filter
              (fun r => pyStrip r.name == s.name)).length) ∧
    Analyzer.calculate_failure_rates
        [⟨1, "Amy", none⟩, ⟨2, "Amy", some "c1"⟩, ⟨3, "Amy ", some "c2"⟩]
      = [{ name := "Amy", total_sessions := 3, failed_sessions := 1,
           failure_rate := 1/3, success_sessions := 2, success_rate := 2/3 }] :=
  ⟨(trimmed_grouping_amended
      [⟨1, "Amy", none⟩, ⟨2, "Amy", some "c1"⟩, ⟨3, "Amy ", some "c2"⟩]).2.1,
   by decide⟩

/-! ### C2: fixed buckets and count conservation -/

/-- A service bucket index is always below 10. -/
lemma Service.binIndex_service_lt {v : ℚ} {i : Nat} (h : Service.binIndex v = some i) :
    i < 10 := by
  have h2 : (if 1 ≤ Service.cutIds v ∧ Service.cutIds v ≤ 10
      then some (Service.cutIds v - 1) else none) = some i := h
  split_ifs at h2 with hc
  injection h2 with h3
  omega

/-- A CLI bucket index is always below 10. -/
lemma Analyzer.binIndex_main_lt {v : ℚ} {i : Nat}
    (h : Analyzer.binIndex v = some i) : i < 10 := by
  have h2 : (if 1 ≤ Analyzer.cutIds v ∧ Analyzer.cutIds v ≤ 10
      then some (Analyzer.cutIds v - 1) else none) = some i := h
  split_ifs at h2 with hc
  injection h2 with h3
  omega

/-- The ten candidate bucket keys are distinct. -/
lemma bucketKeys_nodup : (((List.range 10).map some) : List (Option Nat)).Nodup :=
  (List.nodup_range 10).map (Option.some_injective _)

/-- The service bucket counts sum to the number of rates when all rates lie
in `[0,100]`. -/
lemma service_bins_sum (rates : List ℚ)
    (h : ∀ v ∈ rates, 0 ≤ v ∧ v ≤ 100) :
    ((Service.create_failure_rate_bins rates).map (fun b => b.2)).sum
      = rates.length := by
  have hcov : ∀ v ∈ rates,
      Service.binIndex v ∈ (((List.range 10).map some) : List (Option Nat)) := by
    intro v hv
    obtain ⟨i, hi⟩ := Option.isSome_iff_exists.mp
      (Service.binIndex_total v (h v hv).1 (h v hv).2)
    rw [hi]
    exact List.mem_map_of_mem _ (List.mem_range.mpr (Service.binIndex_service_lt hi))
  have h2 := sum_map_filter_length (fun v : ℚ => Service.binIndex v)
    ((List.range 10).map some) rates bucketKeys_nodup hcov
  rw [List.map_map] at h2
  unfold Service.create_failure_rate_bins
  rw [List.map_map]
  exact h2

/-- The CLI bucket counts sum to the number of rates different from exactly
100 when all rates lie in `[0,100]`. -/
lemma main_bins_sum (percents : List ℚ)
    (h : ∀ v ∈ percents, 0 ≤ v ∧ v ≤ 100) :
    (Analyzer.binCounts percents).sum
      = (percents.filter (fun v => !(v == (100 : ℚ)))).length := by
  set l := percents.filter (fun v => (Analyzer.binIndex v).isSome) with hl
  have hcov : ∀ v ∈ l,
      Analyzer.binIndex v ∈ (((List.range 10).map some) : List (Option Nat)) := by
    intro v hv
    obtain ⟨i, hi⟩ := Option.isSome_iff_exists.mp (List.mem_filter.mp hv).2
    rw [hi]
    exact List.mem_map_of_mem _ (List.mem_range.mpr (Analyzer.binIndex_main_lt hi))
  have h2 := sum_map_filter_length (fun v : ℚ => Analyzer.binIndex v)
    ((List.range 10).map some) l bucketKeys_nodup hcov
  rw [List.map_map] at h2
  have hcong : ∀ i ∈ List.range 10,
      (percents.filter (fun v => Analyzer.binIndex v == some i)).length
        = (l.filter (fun v => Analyzer.binIndex v == some i)).length := by
    intro i _
    rw [hl, List.filter_filter]
    congr 1
    apply List.filter_congr
    intro v _
    by_cases hb : Analyzer.binIndex v == some i
    · have : (Analyzer.binIndex v).isSome := by
        rw [eq_of_beq hb]; rfl
      simp [hb, this]
    · simp [hb]
  unfold Analyzer.binCounts
  rw [List.map_congr_left hcong]
  calc (((List.range 10)).map
        (fun i => (l.filter (fun v => Analyzer.binIndex v == some i)).length)).sum
      = l.length := h2
    _ = (percents.filter (fun v => !(v == (100 : ℚ)))).length := by
        rw [hl]
        congr 1
        apply List.filter_congr
        intro v hv
        by_cases hv100 : v = 100
        · subst hv100
          have : Analyzer.binIndex 100 = none := by decide
          simp [this]
        · have : Analyzer.binIndex v ≠ none := fun hnone =>
            hv100 ((Analyzer.binIndex_none_iff v (h v hv).1 (h v hv).2).mp hnone)
          have hs : (Analyzer.binIndex v).isSome = true :=
            Option.ne_none_iff_isSome.mp this
          have hb : (v == (100 : ℚ)) = false := beq_eq_false_iff_ne.mpr hv100
          simp [hs, hb]

/-- C2 counterexample: in the CLI binner a single user with a 100% rate is
dropped from every bucket (its bin is `NaN`), so the bucket counts sum to 0
while there is 1 user; and on the empty stats list the binning stage raises
(`df_all["Failure Rate"]` on a column-less frame) instead of emitting ten
empty buckets. -/
theorem bins_fixed_buckets_counterexample :
    Analyzer.create_interactive_bar_plot_bins
        (Analyzer.calculate_failure_rates [⟨1, "a", none⟩])
      = Except.ok [0, 0, 0, 0, 0, 0, 0, 0, 0, 0] ∧
    (Analyzer.calculate_failure_rates [⟨1, "a", none⟩]).length = 1 ∧
    ([0, 0, 0, 0, 0, 0, 0, 0, 0, 0] : List Nat).sum = 0 ∧
    Analyzer.create_interactive_bar_plot_bins
        ([] : List Analyzer.UserFailureStats)
      = Except.error "AnalysisError: KeyError Failure Rate" :=
  ⟨by rfl, by decide, by decide, by rfl⟩

/-- C2 amended: the service binner always emits exactly 10 buckets, in fixed
label order with empty buckets at count 0, and its counts sum to the number
of users; the CLI binner also emits 10 ordered buckets for nonempty input,
but its counts sum only to the number of users whose rate is not exactly
100% (100%-rate users are dropped), and on empty input it raises instead of
emitting buckets. -/
theorem bins_fixed_buckets_amended (rates percents : List ℚ)
    (hr : ∀ v ∈ rates, 0 ≤ v ∧ v ≤ 100)
    (hp : ∀ v ∈ percents, 0 ≤ v ∧ v ≤ 100) :
    (Service.create_failure_rate_bins rates).length = 10 ∧
    (Service.create_failure_rate_bins rates).map Prod.fst = rangeLabels ∧
    ((Service.create_failure_rate_bins rates).map (fun b => b.2)).sum
      = rates.length ∧
    (Analyzer.binCounts percents).length = 10 ∧
    (Analyzer.binCounts percents).sum
      = (percents.filter (fun v => !(v == (100 : ℚ)))).length := by
  refine ⟨?_, ?_, service_bins_sum rates hr, ?_, main_bins_sum percents hp⟩
  · unfold Service.create_failure_rate_bins
    rw [List.length_map, List.length_range]
  · unfold Service.create_failure_rate_bins
    rw [List.map_map]
    rw [show (Prod.fst ∘ fun i : Nat => (rangeLabels.getD i "",
        (rates.filter (fun v => Service.binIndex v == some i)).length))
      = (fun i : Nat => rangeLabels.getD i "") from rfl]
    decide
  · unfold Analyzer.binCounts
    rw [List.length_map, List.length_range]

/-- C2 witness: the amended bucket laws evaluated on a 0%-rate user (service)
and a 100%-rate user (CLI). -/
theorem bins_fixed_buckets_amended_witness :
    ((Service.create_failure_rate_bins [0]).map (fun b => b.2)).sum
        = ([0] : List ℚ).length ∧
    (Analyzer.binCounts [100]).sum
      = (([100] : List ℚ).filter (fun v => !(v == (100 : ℚ)))).length :=
  ⟨(bins_fixed_buckets_amended [0] [100] (by decide) (by decide)).2.2.1,
   (bins_fixed_buckets_amended [0] [100] (by decide) (by decide)).2.2.2.2⟩

/-! ### C6: sort policy -/

instance : IsTotal Service.UserRow Service.rateLE where
  total a b := le_total a.failure_rate b.failure_rate

instance : IsTrans Service.UserRow Service.rateLE where
  trans _ _ _ hab hbc := le_trans hab hbc

/-- C6 counterexample: the service variant sorts by `failure_rate` only.
Three users tied at a 0% rate with 4, 1 and 2 sessions (in group order) come
out with session totals `[2, 1, 4]` — not ordered by `total_sessions`
descending, so the claimed tie-break does not hold of its output. -/
theorem sort_policy_counterexample :
    (Service.process_data
        [⟨1, "a", some "x"⟩, ⟨2, "a", some "x"⟩, ⟨3, "a", some "x"⟩,
         ⟨4, "a", some "x"⟩, ⟨5, "b", some "x"⟩, ⟨6, "c", some "x"⟩,
         ⟨7, "c", some "x"⟩]).map (fun r => r.total_sessions) = [2, 1, 4] ∧
    ¬ List.Pairwise (fun a b : Service.UserRow =>
        b.failure_rate < a.failure_rate ∨
          (a.failure_rate = b.failure_rate ∧
            b.total_sessions ≤ a.total_sessions))
      (Service.process_data
        [⟨1, "a", some "x"⟩, ⟨2, "a", some "x"⟩, ⟨3, "a", some "x"⟩,
         ⟨4, "a", some "x"⟩, ⟨5, "b", some "x"⟩, ⟨6, "c", some "x"⟩,
         ⟨7, "c", some "x"⟩]) := by
  constructor
  · decide
  · decide

/-- C6 amended: the CLI aggregator's output satisfies the full policy — it is
totally ordered by `failure_rate` descending with `total_sessions`-descending
tie-break, re-sorting it is the identity, and users with identical rate and
volume keep their group-order relative positions (stability).  The service
variant's output is ordered by (rounded) `failure_rate` descending only; no
`total_sessions` tie-break applies. -/
theorem sort_policy_amended (records : List SessionRecord) (max_users : Nat) :
    List.Pairwise Analyzer.mainLE (Analyzer.calculate_failure_rates records) ∧
    List.insertionSort Analyzer.mainLE (Analyzer.calculate_failure_rates records)
      = Analyzer.calculate_failure_rates records ∧
    (∀ q : ℚ, ∀ t : Nat,
      (Analyzer.calculate_failure_rates records).filter
          (fun s => s.failure_rate == q && s.total_sessions == t)
        = (Analyzer.groupedStats records).filter
            (fun s => s.failure_rate == q && s.total_sessions == t)) ∧
    List.Pairwise (fun a b : Service.UserRow => b.failure_rate ≤ a.failure_rate)
      (Service.process_data records max_users) := by
  refine ⟨List.sorted_insertionSort _ _, ?_, ?_, ?_⟩
  · exact List.Sorted.insertionSort_eq (List.sorted_insertionSort _ _)
  · intro q t
    set p := fun s : Analyzer.UserFailureStats =>
      s.failure_rate == q && s.total_sessions == t with hp
    set c := (Analyzer.groupedStats records).filter p with hc
    have hcmem : ∀ a ∈ c, a.failure_rate = q ∧ a.total_sessions = t := by
      intro a ha
      have := (List.mem_filter.mp ha).2
      rw [hp] at this
      exact ⟨eq_of_beq (Bool.and_elim_left this),
        eq_of_beq (Bool.and_elim_right this)⟩
    have hcpair : c.Pairwise Analyzer.mainLE := by
      apply List.pairwise_of_forall_mem_list
      intro a ha b hb
      right
      refine ⟨?_, ?_⟩
      · rw [(hcmem a ha).1, (hcmem b hb).1]
      · rw [(hcmem a ha).2, (hcmem b hb).2]
    have hsub : List.Sublist c (List.insertionSort Analyzer.mainLE
        (Analyzer.groupedStats records)) :=
      List.sublist_insertionSort hcpair (List.filter_sublist _)
    have hfc : c.filter p = c :=
      List.filter_eq_self.mpr (fun a ha => (List.mem_filter.mp ha).2)
    have h1 : List.Sublist c ((List.insertionSort Analyzer.mainLE
        (Analyzer.groupedStats records)).filter p) := by
      have h := hsub.filter p
      rwa [hfc] at h
    have h2 : List.Perm ((List.insertionSort Analyzer.mainLE
        (Analyzer.groupedStats records)).filter p) c :=
      (List.perm_insertionSort _ _).filter p
    exact (h1.eq_of_length h2.length_eq.symm).symm
  · unfold Service.process_data
    split_ifs
    · exact List.Pairwise.nil
    · apply List.Pairwise.sublist (List.take_sublist _ _)
      unfold Service.sort_values_rate_desc
      rw [List.pairwise_reverse]
      exact List.sorted_insertionSort Service.rateLE _

/-- C6 witness: the stability conjunct instantiated on a concrete tie. -/
theorem sort_policy_amended_witness :
    (Analyzer.calculate_failure_rates
        [⟨1, "a", some "x"⟩, ⟨2, "b", some "x"⟩]).filter
        (fun s => s.failure_rate == (0 : ℚ) && s.total_sessions == 1)
      = (Analyzer.groupedStats
          [⟨1, "a", some "x"⟩, ⟨2, "b", some "x"⟩]).filter
          (fun s => s.failure_rate == (0 : ℚ) && s.total_sessions == 1) :=
  (sort_policy_amended [⟨1, "a", some "x"⟩, ⟨2, "b", some "x"⟩] 15).2.2.1 0 1

/-! ### C8: window validation -/

/-- C8 counterexample: a request with two valid, correctly ordered dates is
still rejected by the function-app validator when its `max_users` is out of
range, so "valid dates and start ≤ end" alone does not make validation
succeed. -/
theorem window_validation_counterexample :
    parseDate "2024-01-01" = some (2024, 1, 1) ∧
    parseDate "2024-01-02" = some (2024, 1, 2) ∧
    dateLe (2024, 1, 1) (2024, 1, 2) = true ∧
    FuncApp.validate_request ⟨some "2024-01-01", some "2024-01-02", none, some 0⟩
      = Except.error "max_users must be between 1 and 100" :=
  ⟨by decide, by decide, by decide, by rfl⟩

/-- C8 amended: a malformed date or `start > end` is rejected before any
storage access or fetch (the server's `analyze_data` performs no effect on a
validation error), and requests with valid ordered dates pass the server's
validation; the function-app validator additionally requires `max_users`
(when present) to lie in 1..100. -/
theorem window_validation_amended (fromS toS fs ts : String) (mu : Option Int)
    (hfs : fs ≠ "") (hts : ts ≠ "") :
    (Server.validate_window fromS toS = Except.ok () ↔
      ∃ f t, parseDate fromS = some f ∧ parseDate toS = some t ∧
        dateLe f t = true) ∧
    (∀ e reqF envF m1 m2 m3 m4 now ttl,
      Server.validate_window fromS toS = Except.error e →
        Server.analyze_data fromS toS reqF envF m1 m2 m3 m4 now ttl
          = ([], Server.Response.badRequest e)) ∧
    (FuncApp.validate_request ⟨some fs, some ts, none, mu⟩ = Except.ok () ↔
      ((∃ f t, parseDate fs = some f ∧ parseDate ts = some t ∧
          dateLe f t = true) ∧
        ∀ m, mu = some m → 0 < m ∧ m ≤ 100)) := by
  refine ⟨?_, ?_, ?_⟩
  · unfold Server.validate_window
    cases hpf : parseDate fromS with
    | none => simp [hpf]
    | some f =>
      cases hpt : parseDate toS with
      | none => simp [hpf, hpt]
      | some t =>
        dsimp only
        split_ifs with hle
        · simp [hle]
        · simp [hle]
  · intro e reqF envF m1 m2 m3 m4 now ttl he
    unfold Server.analyze_data
    rw [he]
  · unfold FuncApp.validate_request
    have htf : FuncApp.truthy (some fs) = true := by
      simp [FuncApp.truthy, hfs]
    have htt : FuncApp.truthy (some ts) = true := by
      simp [FuncApp.truthy, hts]
    cases hpf : parseDate fs with
    | none => simp [htf, htt, hpf]
    | some f =>
      cases hpt : parseDate ts with
      | none => simp [htf, htt, hpf, hpt]
      | some t =>
        cases mu with
        | none =>
          by_cases hle : dateLe f t
          · simp [htf, htt, hpf, hpt, hle, FuncApp.checkMaxUsers]
          · simp [htf, htt, hpf, hpt, hle, FuncApp.checkMaxUsers]
        | some m =>
          by_cases hle : dateLe f t
          · by_cases hm : m ≤ 0 ∨ m > 100
            · simp [htf, htt, hpf, hpt, hle, hm, FuncApp.checkMaxUsers]
              omega
            · simp [htf, htt, hpf, hpt, hle, hm, FuncApp.checkMaxUsers]
              omega
          · simp [htf, htt, hpf, hpt, hle, FuncApp.checkMaxUsers]

/-- C8 witness: a well-formed ordered window passes both validators. -/
theorem window_validation_amended_witness :
    Server.validate_window "2024-01-01" "2024-01-02" = Except.ok () ∧
    FuncApp.validate_request
        ⟨some "2024-01-01", some "2024-01-02", none, some 15⟩
      = Except.ok () :=
  ⟨(window_validation_amended "2024-01-01" "2024-01-02" "x" "y" none
      (by decide) (by decide)).1.mpr
      ⟨(2024, 1, 1), (2024, 1, 2), by decide, by decide, by decide⟩,
   (window_validation_amended "x" "y" "2024-01-01" "2024-01-02" (some 15)
      (by decide) (by decide)).2.2.mpr
      ⟨⟨(2024, 1, 1), (2024, 1, 2), by decide, by decide, by decide⟩,
       fun m hm => by injection hm with h; omega⟩⟩
